import Mathlib

/-!
# dips-shop purchase settlement core: shallow embedding and verification

This file embeds the settlement core of the dips-shop storefront in Lean 4 and
proves, or refutes, the specification's claims about it.

Sources embedded:
* the PostgreSQL stored procedures `reserve_stock` / `complete_purchase`
  (stock-locking SQL file), which run inside a single database transaction, so
  a raised exception rolls back every write of the call;
* the Express route handlers and database helpers in `server.js`
  (`getOrCreateWallet`, `getUserBalance`, `updateUserBalance`, `addTransaction`,
  `markStockAsSold`, and the wallet / purchase / top-up routes);
* the table constraints of the schema in `server.js` (`orders.order_id` and
  `transactions.transaction_id` are UNIQUE; a duplicate insert fails).

The embedding is sequential and failure-free for the infrastructure: every
database call succeeds unless a modelled constraint (a UNIQUE column) rejects
it.  Timestamps are explicit `Nat` parameters: the SQL procedure derives its
generated identifiers from `EXTRACT(EPOCH FROM NOW())` and the JS helpers from
`Date.now()`, so each operation takes the clock value it observes as an
argument.  Money (SQL `DECIMAL(12,2)`, JS numbers) is modelled as `Int`: the SQL `DECIMAL(12,2)` amounts are exact fixed-point
values, every operation the code performs on them (addition, subtraction,
multiplication by a quantity, comparison) is scale-invariant, so amounts are
read as integer multiples of the smallest currency unit.
-/

deriving instance DecidableEq for Except

namespace DipsShop

/-- A row of the `wallets` table: `user_id TEXT UNIQUE`, `balance DECIMAL(12,2)`. -/
structure Wallet where
  user_id : String
  balance : Int
deriving Repr, DecidableEq

/-- A row of the `product_stocks` table.  `sold_at` timestamps are `Nat` ticks. -/
structure StockUnit where
  id : Nat
  product_id : String
  stock_data : String
  is_sold : Bool
  sold_to : Option String
  sold_at : Option Nat
  order_id : Option String
  created_at : Nat
deriving Repr, DecidableEq

/-- The JSONB `details` payload written with a transaction row; only the keys
the code actually writes are modelled. -/
structure TxnDetails where
  productId : Option String := none
  productName : Option String := none
  orderId : Option String := none
  quantity : Option Nat := none
  method : Option String := none
  requestId : Option String := none
deriving Repr, DecidableEq

/-- A row of the `transactions` table (the ledger).
`transaction_id TEXT UNIQUE NOT NULL`. -/
structure Txn where
  transaction_id : String
  user_id : String
  type : String
  amount : Int
  balance_after : Int
  details : TxnDetails
deriving Repr, DecidableEq

/-- A row of the `orders` table.  `order_id TEXT UNIQUE NOT NULL`;
`delivery_data.items` is the list of delivered stock payloads. -/
structure Order where
  order_id : String
  user_id : String
  product_id : String
  product_name : String
  quantity : Nat
  price : Int
  total : Int
  status : String
  delivery_items : List String
deriving Repr, DecidableEq

/-- A row of the `topup_requests` table. -/
structure TopupRequest where
  request_id : String
  user_id : String
  amount : Int
  method : String
  slip_url : Option String
  status : String
  admin_note : Option String
  reviewed_by : Option String
  reviewed_at : Option Nat
deriving Repr, DecidableEq

/-- The fields of a `products` row the purchase path reads. -/
structure Product where
  product_id : String
  name : String
  price : Int
  is_active : Bool
deriving Repr, DecidableEq

/-- The database state shared by the stored procedures and the route handlers. -/
structure DB where
  wallets : List Wallet
  transactions : List Txn
  orders : List Order
  product_stocks : List StockUnit
  topup_requests : List TopupRequest
  products : List Product
deriving Repr, DecidableEq

/-- The empty database the deployed schema starts from. -/
def initDB : DB := ⟨[], [], [], [], [], []⟩

/-- `SELECT * FROM wallets WHERE user_id = userId` (at most one row:
`user_id` is UNIQUE). -/
def findWallet (db : DB) (userId : String) : Option Wallet :=
  db.wallets.find? (fun w => w.user_id == userId)

/-- The balance the code reads for a user: the wallet's balance, `0` when the
user has no wallet row yet. -/
def balanceOf (db : DB) (userId : String) : Int :=
  match findWallet db userId with
  | some w => w.balance
  | none => 0

/-- The ledger entries of one user, in commit (insertion) order. -/
def txnsFor (db : DB) (userId : String) : List Txn :=
  db.transactions.filter (fun t => t.user_id == userId)

/-- Sum of the amounts of a list of ledger entries. -/
def sumAmounts (l : List Txn) : Int :=
  l.foldl (fun acc t => acc + t.amount) 0

/-- Replay of a user's ledger: the sum of the recorded amounts. -/
def sumTxns (db : DB) (userId : String) : Int :=
  sumAmounts (txnsFor db userId)

/-- `WHERE product_id = p AND is_sold = false`, in table order. -/
def unsoldStocks (db : DB) (productId : String) : List StockUnit :=
  db.product_stocks.filter (fun s => s.product_id == productId && s.is_sold == false)

/-- The `ORDER BY created_at ASC` comparison used by the reservation queries. -/
def createdLE (a b : StockUnit) : Prop :=
  a.created_at ≤ b.created_at

instance : DecidableRel createdLE :=
  fun a b => (inferInstance : Decidable (a.created_at ≤ b.created_at))

instance : IsTotal StockUnit createdLE :=
  ⟨fun a b => Nat.le_total a.created_at b.created_at⟩

instance : IsTrans StockUnit createdLE :=
  ⟨fun _ _ _ => Nat.le_trans⟩

/-- The reservation query of the stored procedures:
`SELECT … WHERE product_id = p AND is_sold = false ORDER BY created_at ASC
LIMIT q FOR UPDATE SKIP LOCKED`.  In the sequential model no row is locked by
another transaction, so nothing is skipped. -/
def selectUnsold (db : DB) (productId : String) (quantity : Nat) : List StockUnit :=
  (List.insertionSort createdLE (unsoldStocks db productId)).take quantity

/-- Errors raised by the stored procedures (`RAISE EXCEPTION`), plus the
constraint violation a duplicate UNIQUE key produces. -/
inductive PurchaseError where
  | walletNotFound (userId : String)
  | insufficientBalance (balance required : Int)
  | insufficientStock (available requested : Nat)
  | uniqueViolation (tableName : String)
deriving Repr, DecidableEq

/-- The JSON object `complete_purchase` returns on success. -/
structure PurchaseResult where
  orderId : String
  transactionId : String
  deliveryItems : List String
  total : Int
  newBalance : Int
deriving Repr, DecidableEq

/-- `reserve_stock(p_product_id, p_quantity, p_user_id)` from the stock-locking
SQL file: returns the `(stock_id, stock_data)` rows it locked, or raises
`INSUFFICIENT_STOCK: Available v_count, Requested p_quantity`. -/
def reserve_stock (db : DB) (p_product_id : String) (p_quantity : Nat) :
    Except PurchaseError (List (Nat × String)) :=
  let rows := selectUnsold db p_product_id p_quantity
  if rows.length < p_quantity then
    .error (.insufficientStock rows.length p_quantity)
  else
    .ok (rows.map (fun s => (s.id, s.stock_data)))

/-- The statement-by-statement body of `complete_purchase`, threading the
database through each write.  Exception exits return the state reached at the
`RAISE` (always the input state: all three business raises precede the first
write).  Transaction rollback is applied by `complete_purchase` below. -/
def complete_purchase_body (db : DB) (p_user_id p_product_id : String)
    (p_quantity : Nat) (p_price_per_unit : Int) (p_product_name : String)
    (now : Nat) : DB × Except PurchaseError PurchaseResult :=
  let v_total : Int := p_price_per_unit * (p_quantity : Int)
  let v_order_id : String := "ORD" ++ toString now
  let v_transaction_id : String := "TXN" ++ toString now
  -- 1. SELECT balance FROM wallets WHERE user_id = p_user_id FOR UPDATE
  match findWallet db p_user_id with
  | none => (db, .error (.walletNotFound p_user_id))
  | some w =>
    if w.balance < v_total then
      (db, .error (.insufficientBalance w.balance v_total))
    else
      -- 2. reserve stock under lock (ORDER BY created_at ASC LIMIT p_quantity)
      let selected := selectUnsold db p_product_id p_quantity
      -- IF array_length(v_stock_ids, 1) IS NULL OR array_length(v_stock_ids, 1) < p_quantity
      if selected.isEmpty = true ∨ selected.length < p_quantity then
        (db, .error (.insufficientStock selected.length p_quantity))
      else
        -- 3. UPDATE wallets SET balance = v_new_balance WHERE user_id = p_user_id
        let v_new_balance := w.balance - v_total
        let db1 := { db with wallets := db.wallets.map (fun (x : Wallet) =>
          if x.user_id == p_user_id then { x with balance := v_new_balance } else x) }
        -- 4. UPDATE product_stocks SET is_sold = true, … WHERE id = ANY(v_stock_ids)
        let v_stock_ids := selected.map (fun s => s.id)
        let db2 := { db1 with product_stocks := db1.product_stocks.map (fun (s : StockUnit) =>
          if v_stock_ids.contains s.id then
            { s with is_sold := true, sold_to := some p_user_id,
                     sold_at := some now, order_id := some v_order_id }
          else s) }
        -- 5. INSERT INTO orders …  (order_id is UNIQUE)
        if db2.orders.any (fun o => o.order_id == v_order_id) then
          (db2, .error (.uniqueViolation "orders"))
        else
          let v_stock_data := selected.map (fun s => s.stock_data)
          let newOrder : Order :=
            { order_id := v_order_id, user_id := p_user_id, product_id := p_product_id
              product_name := p_product_name, quantity := p_quantity
              price := p_price_per_unit, total := v_total, status := "completed"
              delivery_items := v_stock_data }
          let db3 := { db2 with orders := db2.orders ++ [newOrder] }
          -- 6. INSERT INTO transactions …  (transaction_id is UNIQUE)
          if db3.transactions.any (fun t => t.transaction_id == v_transaction_id) then
            (db3, .error (.uniqueViolation "transactions"))
          else
            let newTxn : Txn :=
              { transaction_id := v_transaction_id, user_id := p_user_id
                type := "purchase", amount := -v_total, balance_after := v_new_balance
                details := { productId := some p_product_id
                             productName := some p_product_name
                             orderId := some v_order_id, quantity := some p_quantity } }
            let db4 := { db3 with transactions := db3.transactions ++ [newTxn] }
            (db4, .ok { orderId := v_order_id, transactionId := v_transaction_id
                        deliveryItems := v_stock_data, total := v_total
                        newBalance := v_new_balance })

/-- `complete_purchase`: the body runs inside one database transaction, so any
raised exception rolls every write back and the caller observes the input
state together with the error. -/
def complete_purchase (db : DB) (p_user_id p_product_id : String)
    (p_quantity : Nat) (p_price_per_unit : Int) (p_product_name : String)
    (now : Nat) : DB × Except PurchaseError PurchaseResult :=
  match complete_purchase_body db p_user_id p_product_id p_quantity
      p_price_per_unit p_product_name now with
  | (_, .error e) => (db, .error e)
  | (db', .ok r) => (db', .ok r)

/-! ## `server.js` database helpers -/

/-- `getOrCreateWallet(userId)`: returns the existing wallet row, or inserts
and returns a zero-balance row (lazy initialization). -/
def getOrCreateWallet (db : DB) (userId : String) : DB × Wallet :=
  match findWallet db userId with
  | some w => (db, w)
  | none =>
    let w : Wallet := { user_id := userId, balance := 0 }
    ({ db with wallets := db.wallets ++ [w] }, w)

/-- `getUserBalance(userId)`: `getOrCreateWallet` then `parseFloat(wallet.balance) || 0`. -/
def getUserBalance (db : DB) (userId : String) : DB × Int :=
  let g := getOrCreateWallet db userId
  (g.1, g.2.balance)

/-- `updateUserBalance(userId, newBalance)`: upsert on `user_id` — update the
existing row's balance, or insert a fresh row holding `newBalance`. -/
def updateUserBalance (db : DB) (userId : String) (newBalance : Int) : DB :=
  if (findWallet db userId).isSome then
    { db with wallets := db.wallets.map (fun (x : Wallet) =>
        if x.user_id == userId then { x with balance := newBalance } else x) }
  else
    { db with wallets := db.wallets ++ [{ user_id := userId, balance := newBalance }] }

/-- `addTransaction(userId, type, amount, details)`: reads `balance_after` via
`getUserBalance`, then inserts a row with id `TXN${Date.now()}`.  When the
insert violates the UNIQUE `transaction_id` constraint the error is caught and
the function returns `null` — no row is written but earlier writes stand. -/
def addTransaction (db : DB) (userId ty : String) (amount : Int)
    (details : TxnDetails) (now : Nat) : DB × Option Txn :=
  let g := getUserBalance db userId
  let t : Txn := { transaction_id := "TXN" ++ toString now, user_id := userId
                   type := ty, amount := amount, balance_after := g.2
                   details := details }
  if g.1.transactions.any (fun x => x.transaction_id == t.transaction_id) then
    (g.1, none)
  else
    ({ g.1 with transactions := g.1.transactions ++ [t] }, some t)

/-- `markStockAsSold(stockIds, userId, orderId)`: one unconditional
`UPDATE product_stocks SET is_sold = true, sold_to, sold_at, order_id
WHERE id IN stockIds`; returns `true` on success.  There is no guard on a
unit's previous `is_sold` / `order_id` state. -/
def soldUpdate (stockIds : List Nat) (userId orderId : String) (now : Nat)
    (s : StockUnit) : StockUnit :=
  if stockIds.contains s.id then
    { s with is_sold := true, sold_to := some userId
             sold_at := some now, order_id := some orderId }
  else s

def markStockAsSold (db : DB) (stockIds : List Nat) (userId orderId : String)
    (now : Nat) : DB × Bool :=
  ({ db with product_stocks :=
      db.product_stocks.map (soldUpdate stockIds userId orderId now) }, true)

/-- `getProductById` (cache and hardcoded fallback elided: the table is the
authority in the failure-free model). -/
def getProductById (db : DB) (productId : String) : Option Product :=
  db.products.find? (fun p => p.product_id == productId)

/-! ## `server.js` route handlers -/

/-- Responses of `POST /api/products/:id/purchase`. -/
inductive PurchaseResp where
  | success (orderId : String) (quantity : Nat) (total : Int)
      (delivery : List String) (newBalance : Int)
  | invalidQuantity
  | productNotFound
  | productInactive
  | invalidPrice
  | outOfStock (available requested : Nat)
  | notEnoughBalance (balance required : Int)
  | walletMissing
  | serverError
deriving Repr, DecidableEq

/-- Modelled from the spec: `middleware/validation.js` (the `purchaseValidation`
and `validate` middleware the purchase route mounts) is not among the source
files.  The spec's error taxonomy names `InvalidQuantity` — quantity `≤ 0` or
over a configured cap — as a business-rule failure reported verbatim with no
partial effect, so the missing middleware is modelled as rejecting exactly
those requests before the handler runs.  `none` stands for an absent or
non-numeric `quantity` field, which the handler itself defaults to 1. -/
def purchaseValidationOk (bodyQuantity : Option Int) : Bool :=
  match bodyQuantity with
  | some q => 1 ≤ q && q ≤ 100
  | none => true

/-- The handler of `POST /api/products/:id/purchase`, composed with the
validation middleware.  `parseInt(req.body.quantity) || 1` maps a zero or
non-numeric body quantity to 1; the handler then re-checks the 1–100 range,
looks the product up, rejects inactive products and negative prices, and calls
the `complete_purchase` stored procedure, translating its raised errors. -/
def parsedQuantity (bodyQuantity : Option Int) : Int :=
  match bodyQuantity with
  | some q => if q == 0 then 1 else q
  | none => 1

def purchaseRoute (db : DB) (userId productId : String)
    (bodyQuantity : Option Int) (now : Nat) : DB × PurchaseResp :=
  if purchaseValidationOk bodyQuantity = false then (db, .invalidQuantity) else
  if parsedQuantity bodyQuantity < 1 ∨ 100 < parsedQuantity bodyQuantity then
    (db, .invalidQuantity) else
  match getProductById db productId with
  | none => (db, .productNotFound)
  | some product =>
    if product.is_active = false then (db, .productInactive) else
    if product.price < 0 then (db, .invalidPrice) else
    match complete_purchase db userId productId (parsedQuantity bodyQuantity).toNat
        product.price product.name now with
    | (db', .error (.insufficientStock available requested)) =>
      (db', .outOfStock available requested)
    | (db', .error (.insufficientBalance balance required)) =>
      (db', .notEnoughBalance balance required)
    | (db', .error (.walletNotFound _)) => (db', .walletMissing)
    | (db', .error (.uniqueViolation _)) => (db', .serverError)
    | (db', .ok r) =>
      (db', .success r.orderId (parsedQuantity bodyQuantity).toNat r.total
        r.deliveryItems r.newBalance)

/-- Responses of `POST /api/wallet/deduct`. -/
inductive DeductResp where
  | ok (newBalance : Int) (txnRecorded : Bool)
  | invalidAmount
  | insufficient (currentBalance required : Int)
deriving Repr, DecidableEq

/-- The handler of `POST /api/wallet/deduct`: validates the amount
(`!amount || isNaN(amount) || amount <= 0`), reads the balance, rejects a
debit exceeding it, writes the decreased balance, then records the ledger
entry.  `none` stands for an absent or non-numeric amount. -/
def deductRoute (db : DB) (userId : String) (amount : Option Int)
    (productId productName : Option String) (now : Nat) : DB × DeductResp :=
  match amount with
  | none => (db, .invalidAmount)
  | some a =>
    if a ≤ 0 then (db, .invalidAmount) else
    let g := getUserBalance db userId
    if g.2 < a then (g.1, .insufficient g.2 a) else
    let newBalance := g.2 - a
    let db2 := updateUserBalance g.1 userId newBalance
    let r := addTransaction db2 userId "purchase" (-a)
      { productId := productId, productName := productName } now
    (r.1, .ok newBalance r.2.isSome)

/-- Responses of the top-up admin routes. -/
inductive TopupResp where
  | ok (newBalance : Int)
  | invalid
  | notFoundOrHandled
deriving Repr, DecidableEq

/-- The handler of `POST /api/admin/topup`: validates the amount, lazily
creates the wallet, credits it, and records a `topup` ledger entry. -/
def adminTopupRoute (db : DB) (_adminId : String) (targetUserId : Option String)
    (amount : Option Int) (now : Nat) : DB × TopupResp :=
  match targetUserId, amount with
  | some uid, some a =>
    if a ≤ 0 then (db, .invalid) else
    let db1 := (getOrCreateWallet db uid).1
    let g := getUserBalance db1 uid
    let newBalance := g.2 + a
    let db3 := updateUserBalance g.1 uid newBalance
    let r := addTransaction db3 uid "topup" a
      { method := some "admin" } now
    (r.1, .ok newBalance)
  | _, _ => (db, .invalid)

/-- The handler of `POST /api/admin/topup-requests/:requestId/approve`:
fetches the request filtered by `status = 'pending'` (404 when absent or
already handled), resolves the amount (`bodyAmount ? parseFloat(bodyAmount) :
parseFloat(request.amount)`, a zero body amount being falsy), rejects a
non-positive amount, marks the request approved with reviewer and time, then
credits the wallet and records a `topup` ledger entry.
`amountOf` is `bodyAmount ? parseFloat(bodyAmount) : parseFloat(request.amount)`
(a zero body amount is falsy, so the request's amount is used), and
`approveUpd` the update applied to the matching request row. -/
def amountOf (bodyAmount : Option Int) (request : TopupRequest) : Int :=
  match bodyAmount with
  | some b => if b == 0 then request.amount else b
  | none => request.amount

/-- The update the approve route applies to the matching request row. -/
def approveUpd (requestId adminId : String) (amount : Int) (note : Option String)
    (now : Nat) (r : TopupRequest) : TopupRequest :=
  if r.request_id == requestId then
    { r with status := "approved", amount := amount
             admin_note := some (note.getD "approved")
             reviewed_by := some adminId, reviewed_at := some now }
  else r

/-- The approved-request state: the matching row marked approved. -/
def approveDB1 (db : DB) (requestId adminId : String) (amount : Int)
    (note : Option String) (now : Nat) : DB :=
  { db with topup_requests :=
      db.topup_requests.map (approveUpd requestId adminId amount note now) }

/-- The write pipeline after the pending fetch and amount check: mark the
request approved, lazily create the wallet, credit it, record the ledger row. -/
def approveCommit (db : DB) (requestId adminId : String) (request : TopupRequest)
    (bodyAmount : Option Int) (note : Option String) (now : Nat) : DB × TopupResp :=
  let db1 := approveDB1 db requestId adminId (amountOf bodyAmount request) note now
  let db2 := (getOrCreateWallet db1 request.user_id).1
  let g := getUserBalance db2 request.user_id
  let db4 := updateUserBalance g.1 request.user_id (g.2 + amountOf bodyAmount request)
  let r := addTransaction db4 request.user_id "topup" (amountOf bodyAmount request)
    { method := some request.method, requestId := some requestId } now
  (r.1, .ok (g.2 + amountOf bodyAmount request))

def approveTopupRoute (db : DB) (requestId adminId : String)
    (bodyAmount : Option Int) (note : Option String) (now : Nat) : DB × TopupResp :=
  match db.topup_requests.find? (fun r =>
      r.request_id == requestId && r.status == "pending") with
  | none => (db, .notFoundOrHandled)
  | some request =>
    if amountOf bodyAmount request ≤ 0 then (db, .invalid) else
    approveCommit db requestId adminId request bodyAmount note now

/-- The handler of `POST /api/admin/topup-requests/:requestId/reject`: the
same pending guard, then a pure state transition to `rejected`. -/
def rejectTopupRoute (db : DB) (requestId adminId : String) (note : Option String)
    (now : Nat) : DB × TopupResp :=
  match db.topup_requests.find? (fun r =>
      r.request_id == requestId && r.status == "pending") with
  | none => (db, .notFoundOrHandled)
  | some _ =>
    let upd : TopupRequest → TopupRequest := fun r =>
      if r.request_id == requestId then
        { r with status := "rejected", admin_note := some (note.getD "rejected")
                 reviewed_by := some adminId, reviewed_at := some now }
      else r
    ({ db with topup_requests := db.topup_requests.map upd }, .ok 0)

/-- The handler of `POST /api/wallet/topup/:requestId/cancel`: pending guard
scoped to the requesting user, then a pure transition to `cancelled`. -/
def cancelTopupRoute (db : DB) (requestId userId : String) (_now : Nat) :
    DB × TopupResp :=
  match db.topup_requests.find? (fun r =>
      r.request_id == requestId && r.user_id == userId && r.status == "pending") with
  | none => (db, .notFoundOrHandled)
  | some _ =>
    let upd : TopupRequest → TopupRequest := fun r =>
      if r.request_id == requestId then { r with status := "cancelled" } else r
    ({ db with topup_requests := db.topup_requests.map upd }, .ok 0)

/-- The handler of `POST /api/wallet/topup`: validates amount (positive, at
most 100000) and method, caps pending requests per user at 3, then inserts a
pending request with id `REQ${Date.now()}`. -/
def submitTopupRoute (db : DB) (userId : String) (amount : Int) (method : String)
    (slipUrl : Option String) (now : Nat) : DB × TopupResp :=
  if amount ≤ 0 then (db, .invalid) else
  if 100000 < amount then (db, .invalid) else
  if (method == "promptpay" || method == "truemoney" || method == "bank_transfer")
      = false then (db, .invalid) else
  if 3 ≤ (db.topup_requests.filter (fun r =>
      r.user_id == userId && r.status == "pending")).length then (db, .invalid) else
  ({ db with topup_requests := db.topup_requests ++
      [{ request_id := "REQ" ++ toString now, user_id := userId, amount := amount
         method := method, slip_url := slipUrl, status := "pending"
         admin_note := none, reviewed_by := none, reviewed_at := none }] }, .ok 0)

/-! ## The TrueMoney angpao redeem endpoint -/

/-- A thrown JavaScript error. -/
inductive JsError where
  | referenceError (identifier : String)
deriving Repr, DecidableEq

/-- The call `updateBalance(userId, amount)` in the redeem handler of
`server.js`.  No binding named `updateBalance` exists anywhere in `server.js`
or its imports (the defined helper is `updateUserBalance`), so evaluating the
identifier at runtime throws a `ReferenceError` before any write happens. -/
def updateBalance (_userId : String) (_amount : Int) : Except JsError Int :=
  .error (.referenceError "updateBalance")

/-- The outcome of the external `redeemAngpao` call (`utils/truemoneyApi.js`,
an outbound HTTP exchange): passed to the handler as an input. -/
structure AngpaoOutcome where
  success : Bool
  amount : Int
  transactionId : String
deriving Repr, DecidableEq

/-- Responses of `POST /api/truemoney/redeem`. -/
inductive RedeemResp where
  | badRequest
  | serverError
  | ok (amount newBalance : Int)
deriving Repr, DecidableEq

/-- The handler of `POST /api/truemoney/redeem`.  Voucher-format validation and
the external redeem call live outside the database model and enter as inputs.
After a successful redeem the handler calls the unbound identifier
`updateBalance`; the thrown `ReferenceError` is caught by the handler's
catch-all, which answers HTTP 500.  The continuation after that call
(`addTransaction`, audit log, success response) is translated faithfully but
is unreachable. -/
def truemoneyRedeemRoute (db : DB) (userId : String)
    (voucherValid alreadyUsed : Bool) (redeem : AngpaoOutcome) (now : Nat) :
    DB × RedeemResp :=
  if voucherValid = false then (db, .badRequest) else
  if alreadyUsed = true then (db, .badRequest) else
  if redeem.success = false then (db, .badRequest) else
  match updateBalance userId redeem.amount with
  | .error _ => (db, .serverError)
  | .ok _ =>
    let r := addTransaction db userId "topup" redeem.amount
      { method := some "truemoney_angpao" } now
    let g := getUserBalance r.1 userId
    (g.1, .ok redeem.amount g.2)

/-! ## Reachable states: the operations that touch the core stores -/

/-- One client-visible operation of the settlement core.  Each carries the
clock tick the handler observes. -/
inductive Op where
  | login (userId : String)
  | purchase (userId productId : String) (bodyQuantity : Option Int) (now : Nat)
  | deduct (userId : String) (amount : Option Int)
      (productId productName : Option String) (now : Nat)
  | adminTopup (adminId : String) (targetUserId : Option String)
      (amount : Option Int) (now : Nat)
  | submitTopup (userId : String) (amount : Int) (method : String)
      (slipUrl : Option String) (now : Nat)
  | approveTopup (requestId adminId : String) (bodyAmount : Option Int)
      (note : Option String) (now : Nat)
  | rejectTopup (requestId adminId : String) (note : Option String) (now : Nat)
  | cancelTopup (requestId userId : String) (now : Nat)
  | redeemAngpao (userId : String) (voucherValid alreadyUsed : Bool)
      (outcome : AngpaoOutcome) (now : Nat)
  | addProduct (product : Product)
  | addStock (productId : String) (units : List (Nat × String)) (now : Nat)
deriving Repr, DecidableEq

/-- The state reached after one operation.  `login` is the wallet bootstrap on
Discord login (`getOrCreateWallet`); `addProduct` / `addStock` are the admin
catalog paths, which only append product rows and unsold stock units. -/
def step (db : DB) : Op → DB
  | .login userId => (getOrCreateWallet db userId).1
  | .purchase userId productId bodyQuantity now =>
    (purchaseRoute db userId productId bodyQuantity now).1
  | .deduct userId amount productId productName now =>
    (deductRoute db userId amount productId productName now).1
  | .adminTopup adminId targetUserId amount now =>
    (adminTopupRoute db adminId targetUserId amount now).1
  | .submitTopup userId amount method slipUrl now =>
    (submitTopupRoute db userId amount method slipUrl now).1
  | .approveTopup requestId adminId bodyAmount note now =>
    (approveTopupRoute db requestId adminId bodyAmount note now).1
  | .rejectTopup requestId adminId note now =>
    (rejectTopupRoute db requestId adminId note now).1
  | .cancelTopup requestId userId now =>
    (cancelTopupRoute db requestId userId now).1
  | .redeemAngpao userId voucherValid alreadyUsed outcome now =>
    (truemoneyRedeemRoute db userId voucherValid alreadyUsed outcome now).1
  | .addProduct product => { db with products := db.products ++ [product] }
  | .addStock productId units now =>
    { db with product_stocks := db.product_stocks ++ units.map (fun u =>
        { id := u.1, product_id := productId, stock_data := u.2, is_sold := false
          sold_to := none, sold_at := none, order_id := none, created_at := now }) }

/-- Run a sequence of operations from a state. -/
def runOps (db : DB) : List Op → DB
  | [] => db
  | op :: ops => runOps (step db op) ops

/-- Whether the ledger write of this operation is safe from the silent
duplicate-id drop: the JS helpers insert rows keyed `TXN${Date.now()}` and
swallow the UNIQUE-violation error, so an operation whose tick collides with an
already recorded transaction id can lose its ledger entry.  The stored
procedure is exempt: a duplicate id there aborts and rolls back the whole
purchase. -/
def stepOk (db : DB) : Op → Bool
  | .deduct _ _ _ _ now =>
    db.transactions.all (fun t => t.transaction_id != "TXN" ++ toString now)
  | .adminTopup _ _ _ now =>
    db.transactions.all (fun t => t.transaction_id != "TXN" ++ toString now)
  | .approveTopup _ _ _ _ now =>
    db.transactions.all (fun t => t.transaction_id != "TXN" ++ toString now)
  | _ => true

/-- All ledger writes along a run are collision-free. -/
def runOk (db : DB) : List Op → Bool
  | [] => true
  | op :: ops => stepOk db op && runOk (step db op) ops

/-! ## Invariants and concrete scenario states -/

/-- Every wallet row carries a non-negative balance. -/
def WalletsNonneg (db : DB) : Prop :=
  ∀ w ∈ db.wallets, 0 ≤ w.balance

/-- Ledger consistency: for every account the replayed sum of its entries, in
commit order, equals the current balance, and the last entry's `balance_after`
equals the current balance. -/
def LedgerInv (db : DB) : Prop :=
  ∀ u : String, sumTxns db u = balanceOf db u ∧
    ∀ t, (txnsFor db u).getLast? = some t → t.balance_after = balanceOf db u

/-- The spec's purchase scenario: product `P` with three unsold units priced
100, account `A` with balance 250. -/
def scenarioDB : DB :=
  { initDB with
      wallets := [⟨"A", 250⟩]
      product_stocks := [⟨1, "P", "k1", false, none, none, none, 10⟩,
                         ⟨2, "P", "k2", false, none, none, none, 11⟩,
                         ⟨3, "P", "k3", false, none, none, none, 12⟩]
      products := [⟨"P", "Prod", 100, true⟩] }

/-- A state with a pending top-up request for `u` and a ledger already holding
a transaction whose id is `TXN7`. -/
def approveCollisionDB : DB :=
  { initDB with
      transactions := [⟨"TXN7", "x", "topup", 5, 5, {}⟩]
      topup_requests := [⟨"REQ1", "u", 100, "promptpay", none, "pending",
                          none, none, none⟩] }

/-- A state with one stock unit already finalized under order `ORD1`. -/
def soldUnitDB : DB :=
  { initDB with
      product_stocks := [⟨1, "P", "k", true, some "u1", some 10, some "ORD1", 0⟩] }

/-- The order row a successful purchase writes (step 5 of `complete_purchase`). -/
def purchaseOrderRec (u P nm : String) (q : Nat) (price : Int) (now : Nat)
    (items : List String) : Order :=
  { order_id := "ORD" ++ toString now, user_id := u, product_id := P
    product_name := nm, quantity := q, price := price
    total := price * (q : Int), status := "completed", delivery_items := items }

/-- The ledger row a successful purchase writes (step 6 of `complete_purchase`). -/
def purchaseTxnRec (u P nm : String) (q : Nat) (price : Int) (now : Nat)
    (newBalance : Int) : Txn :=
  { transaction_id := "TXN" ++ toString now, user_id := u, type := "purchase"
    amount := -(price * (q : Int)), balance_after := newBalance
    details := { productId := some P, productName := some nm
                 orderId := some ("ORD" ++ toString now), quantity := some q } }

/-- The state a successful purchase commits, given the locked wallet row `w`. -/
def purchaseCommitDB (db : DB) (u P nm : String) (q : Nat) (price : Int)
    (now : Nat) (w : Wallet) : DB :=
  { db with
    wallets := db.wallets.map (fun (x : Wallet) =>
      if x.user_id == u then { x with balance := w.balance - price * (q : Int) }
      else x)
    product_stocks := db.product_stocks.map (fun (s : StockUnit) =>
      if ((selectUnsold db P q).map (fun t => t.id)).contains s.id then
        { s with is_sold := true, sold_to := some u, sold_at := some now
                 order_id := some ("ORD" ++ toString now) }
      else s)
    orders := db.orders ++ [purchaseOrderRec u P nm q price now
      ((selectUnsold db P q).map (fun s => s.stock_data))]
    transactions := db.transactions ++ [purchaseTxnRec u P nm q price now
      (w.balance - price * (q : Int))] }

/-- A state with one unsold unit of `P` and a rich wallet, used to exercise
the insufficient-stock path. -/
def lowStockDB : DB :=
  { initDB with
      wallets := [⟨"B", 1000⟩]
      product_stocks := [⟨7, "P", "kp", false, none, none, none, 3⟩] }

/-! ## Effect lemmas for the database helpers -/

theorem getOrCreateWallet_frame (db : DB) (u : String) :
    (getOrCreateWallet db u).1.transactions = db.transactions ∧
    (getOrCreateWallet db u).1.orders = db.orders ∧
    (getOrCreateWallet db u).1.product_stocks = db.product_stocks ∧
    (getOrCreateWallet db u).1.topup_requests = db.topup_requests ∧
    (getOrCreateWallet db u).1.products = db.products := by
  unfold getOrCreateWallet
  cases findWallet db u <;> simp

theorem getOrCreateWallet_wallets_mem (db : DB) (u : String) :
    ∀ w ∈ (getOrCreateWallet db u).1.wallets, w ∈ db.wallets ∨ w.balance = 0 := by
  unfold getOrCreateWallet
  cases findWallet db u with
  | some w => exact fun w hw => Or.inl hw
  | none =>
    intro w hw
    simp only [List.mem_append, List.mem_singleton] at hw
    rcases hw with hw | hw
    · exact Or.inl hw
    · subst hw; exact Or.inr rfl

theorem find?_wallet_append (l : List Wallet) (a : Wallet) (v : String) :
    (l ++ [a]).find? (fun w => w.user_id == v)
      = ((l.find? (fun w => w.user_id == v)).or
          (if (a.user_id == v) = true then some a else none)) := by
  rw [List.find?_append]
  congr 1
  cases ha : a.user_id == v <;> simp [List.find?, ha]

theorem find?_update_list_self (l : List Wallet) (u : String) (b : Int) :
    (l.map (fun (x : Wallet) =>
        if x.user_id == u then { x with balance := b } else x)).find?
        (fun w => w.user_id == u)
      = (l.find? (fun w => w.user_id == u)).map
          (fun (x : Wallet) => { x with balance := b }) := by
  induction l with
  | nil => rfl
  | cons a l ih =>
    rw [List.map_cons]
    by_cases ha : (a.user_id == u) = true
    · have hfa : (if a.user_id == u then ({ a with balance := b } : Wallet) else a)
          = { a with balance := b } := by rw [ha]; simp
      rw [hfa]
      rw [List.find?_cons_of_pos (p := fun (w : Wallet) => w.user_id == u) _ (by simpa using ha),
          List.find?_cons_of_pos (p := fun (w : Wallet) => w.user_id == u) _ ha]
      rfl
    · have hb : (a.user_id == u) = false := by simpa using ha
      have hfa : (if a.user_id == u then ({ a with balance := b } : Wallet) else a) = a := by
        rw [hb]; simp
      rw [hfa]
      rw [List.find?_cons_of_neg (p := fun (w : Wallet) => w.user_id == u) _ (by simp [hb]),
          List.find?_cons_of_neg (p := fun (w : Wallet) => w.user_id == u) _ (by simp [hb])]
      exact ih

theorem find?_update_list_other (l : List Wallet) (u : String) (b : Int)
    (v : String) (hv : v ≠ u) :
    (l.map (fun (x : Wallet) =>
        if x.user_id == u then { x with balance := b } else x)).find?
        (fun w => w.user_id == v)
      = l.find? (fun w => w.user_id == v) := by
  induction l with
  | nil => rfl
  | cons a l ih =>
    rw [List.map_cons]
    by_cases hau : (a.user_id == u) = true
    · have hav : (a.user_id == v) = false := by
        have : a.user_id = u := by simpa using hau
        simp [this, Ne.symm hv]
      have hfa : (if a.user_id == u then ({ a with balance := b } : Wallet) else a)
          = { a with balance := b } := by rw [hau]; simp
      rw [hfa]
      rw [List.find?_cons_of_neg (p := fun (w : Wallet) => w.user_id == v) _ (by simp [hav]),
          List.find?_cons_of_neg (p := fun (w : Wallet) => w.user_id == v) _ (by simp [hav])]
      exact ih
    · have hb : (a.user_id == u) = false := by simpa using hau
      have hfa : (if a.user_id == u then ({ a with balance := b } : Wallet) else a) = a := by
        rw [hb]; simp
      rw [hfa]
      by_cases hav : (a.user_id == v) = true
      · rw [List.find?_cons_of_pos (p := fun (w : Wallet) => w.user_id == v) _ hav,
            List.find?_cons_of_pos (p := fun (w : Wallet) => w.user_id == v) _ hav]
      · have hcv : (a.user_id == v) = false := by simpa using hav
        rw [List.find?_cons_of_neg (p := fun (w : Wallet) => w.user_id == v) _ (by simp [hcv]),
            List.find?_cons_of_neg (p := fun (w : Wallet) => w.user_id == v) _ (by simp [hcv])]
        exact ih

theorem wallet_update_user_id (u : String) (b : Int) (x : Wallet) :
    (if x.user_id == u then { x with balance := b } else x).user_id = x.user_id := by
  split <;> rfl

theorem updateUserBalance_frame (db : DB) (u : String) (b : Int) :
    (updateUserBalance db u b).transactions = db.transactions ∧
    (updateUserBalance db u b).orders = db.orders ∧
    (updateUserBalance db u b).product_stocks = db.product_stocks ∧
    (updateUserBalance db u b).topup_requests = db.topup_requests ∧
    (updateUserBalance db u b).products = db.products := by
  unfold updateUserBalance
  split <;> simp

theorem updateUserBalance_wallets_mem (db : DB) (u : String) (b : Int) :
    ∀ w ∈ (updateUserBalance db u b).wallets, w ∈ db.wallets ∨ w.balance = b := by
  unfold updateUserBalance
  split
  · intro w hw
    simp only [List.mem_map] at hw
    obtain ⟨x, hx, hxe⟩ := hw
    by_cases hxu : x.user_id == u
    · right; rw [← hxe]; simp [hxu]
    · left; rw [← hxe]; simpa [hxu] using hx
  · intro w hw
    simp only [List.mem_append, List.mem_singleton] at hw
    rcases hw with hw | hw
    · exact Or.inl hw
    · subst hw; exact Or.inr rfl


theorem balanceOf_eq (db : DB) (v : String) :
    balanceOf db v = ((findWallet db v).map Wallet.balance).getD 0 := by
  unfold balanceOf
  cases findWallet db v <;> rfl

theorem balanceOf_getOrCreateWallet (db : DB) (u v : String) :
    balanceOf (getOrCreateWallet db u).1 v = balanceOf db v := by
  unfold getOrCreateWallet
  cases h : findWallet db u with
  | some w => rfl
  | none =>
    rw [balanceOf_eq, balanceOf_eq]
    show ((((db.wallets ++ [(⟨u, 0⟩ : Wallet)]).find? (fun w => w.user_id == v)).map
        Wallet.balance).getD 0) = _
    rw [find?_wallet_append]
    unfold findWallet at h ⊢
    by_cases hv : u = v
    · subst hv
      rw [h]
      simp
    · have : ((⟨u, 0⟩ : Wallet).user_id == v) = false := by simp [hv]
      rw [this]
      cases h2 : db.wallets.find? (fun w => w.user_id == v) <;> simp

theorem balanceOf_updateUserBalance_self (db : DB) (u : String) (b : Int) :
    balanceOf (updateUserBalance db u b) u = b := by
  unfold updateUserBalance
  split
  · rename_i hsome
    rw [balanceOf_eq]
    show (((db.wallets.map _).find? (fun w => w.user_id == u)).map
        Wallet.balance).getD 0 = b
    rw [find?_update_list_self]
    unfold findWallet at hsome
    cases h : db.wallets.find? (fun w => w.user_id == u) with
    | none => rw [h] at hsome; cases hsome
    | some w => rfl
  · rename_i hnone
    rw [balanceOf_eq]
    show ((((db.wallets ++ [(⟨u, b⟩ : Wallet)]).find? (fun w => w.user_id == u)).map
        Wallet.balance).getD 0) = b
    rw [find?_wallet_append]
    unfold findWallet at hnone
    cases h : db.wallets.find? (fun w => w.user_id == u) with
    | some w => rw [h] at hnone; simp at hnone
    | none => simp

theorem balanceOf_updateUserBalance_other (db : DB) (u : String) (b : Int)
    (v : String) (hv : v ≠ u) :
    balanceOf (updateUserBalance db u b) v = balanceOf db v := by
  unfold updateUserBalance
  split
  · rw [balanceOf_eq]
    show (((db.wallets.map _).find? (fun w => w.user_id == v)).map
        Wallet.balance).getD 0 = _
    rw [find?_update_list_other db.wallets u b v hv, balanceOf_eq]
    rfl
  · rw [balanceOf_eq]
    show ((((db.wallets ++ [(⟨u, b⟩ : Wallet)]).find? (fun w => w.user_id == v)).map
        Wallet.balance).getD 0) = _
    rw [find?_wallet_append]
    have : ((⟨u, b⟩ : Wallet).user_id == v) = false := by
      simp [Ne.symm hv]
    rw [this, balanceOf_eq]
    unfold findWallet
    cases h : db.wallets.find? (fun w => w.user_id == v) <;> simp


theorem getUserBalance_fst (db : DB) (u : String) :
    (getUserBalance db u).1 = (getOrCreateWallet db u).1 := rfl

theorem getUserBalance_snd (db : DB) (u : String) :
    (getUserBalance db u).2 = balanceOf db u := by
  unfold getUserBalance getOrCreateWallet balanceOf
  cases h : findWallet db u <;> simp [h]

theorem findWallet_getOrCreateWallet_self (db : DB) (u : String) :
    (findWallet (getOrCreateWallet db u).1 u).isSome = true := by
  unfold getOrCreateWallet
  cases h : findWallet db u with
  | some w => simp [h]
  | none =>
    show (findWallet { db with wallets := db.wallets ++ [(⟨u, 0⟩ : Wallet)] } u).isSome = true
    unfold findWallet at h ⊢
    rw [find?_wallet_append, h]
    simp

theorem getOrCreateWallet_eq_of_isSome (db : DB) (u : String)
    (h : (findWallet db u).isSome = true) : (getOrCreateWallet db u).1 = db := by
  unfold getOrCreateWallet
  cases h2 : findWallet db u with
  | some w => rfl
  | none => rw [h2] at h; cases h

theorem findWallet_updateUserBalance_self_isSome (db : DB) (u : String) (b : Int) :
    (findWallet (updateUserBalance db u b) u).isSome = true := by
  unfold updateUserBalance
  split
  · rename_i hsome
    unfold findWallet
    rw [find?_update_list_self]
    unfold findWallet at hsome
    cases h : db.wallets.find? (fun w => w.user_id == u) with
    | none => rw [h] at hsome; cases hsome
    | some w => simp
  · unfold findWallet
    rw [find?_wallet_append]
    cases h : db.wallets.find? (fun w => w.user_id == u) <;> simp

theorem addTransaction_eq (db : DB) (u ty : String) (a : Int) (d : TxnDetails)
    (now : Nat) :
    addTransaction db u ty a d now
      = if (getOrCreateWallet db u).1.transactions.any
            (fun x => x.transaction_id == "TXN" ++ toString now) then
          ((getOrCreateWallet db u).1, none)
        else
          ({ (getOrCreateWallet db u).1 with transactions :=
              (getOrCreateWallet db u).1.transactions
                ++ [⟨"TXN" ++ toString now, u, ty, a, balanceOf db u, d⟩] },
           some ⟨"TXN" ++ toString now, u, ty, a, balanceOf db u, d⟩) := by
  have hsnd : (getUserBalance db u).2 = balanceOf db u := getUserBalance_snd db u
  have hfst : (getUserBalance db u).1 = (getOrCreateWallet db u).1 := rfl
  simp only [addTransaction, hsnd, hfst]

theorem addTransaction_frame (db : DB) (u ty : String) (a : Int) (d : TxnDetails)
    (now : Nat) :
    (addTransaction db u ty a d now).1.orders = db.orders ∧
    (addTransaction db u ty a d now).1.product_stocks = db.product_stocks ∧
    (addTransaction db u ty a d now).1.topup_requests = db.topup_requests ∧
    (addTransaction db u ty a d now).1.products = db.products ∧
    (addTransaction db u ty a d now).1.wallets = (getOrCreateWallet db u).1.wallets := by
  obtain ⟨h1, h2, h3, h4, h5⟩ := getOrCreateWallet_frame db u
  rw [addTransaction_eq]
  split <;> simp [h2, h3, h4, h5]

theorem addTransaction_txns_dup (db : DB) (u ty : String) (a : Int) (d : TxnDetails)
    (now : Nat)
    (h : db.transactions.any (fun x => x.transaction_id == "TXN" ++ toString now) = true) :
    (addTransaction db u ty a d now).1.transactions = db.transactions ∧
    (addTransaction db u ty a d now).2 = none := by
  obtain ⟨h1, _, _, _, _⟩ := getOrCreateWallet_frame db u
  rw [addTransaction_eq, h1, if_pos h]
  exact ⟨h1, rfl⟩

theorem addTransaction_txns_fresh (db : DB) (u ty : String) (a : Int) (d : TxnDetails)
    (now : Nat)
    (h : db.transactions.any (fun x => x.transaction_id == "TXN" ++ toString now) = false) :
    (addTransaction db u ty a d now).1.transactions
      = db.transactions ++ [⟨"TXN" ++ toString now, u, ty, a, balanceOf db u, d⟩] ∧
    (addTransaction db u ty a d now).2
      = some ⟨"TXN" ++ toString now, u, ty, a, balanceOf db u, d⟩ := by
  obtain ⟨h1, _, _, _, _⟩ := getOrCreateWallet_frame db u
  rw [addTransaction_eq, h1, if_neg (by simp [h])]
  exact ⟨rfl, rfl⟩

theorem txnsFor_congr (db2 db1 : DB) (h : db2.transactions = db1.transactions)
    (v : String) : txnsFor db2 v = txnsFor db1 v := by
  unfold txnsFor
  rw [h]

theorem txnsFor_append (db2 db1 : DB) (t : Txn)
    (h : db2.transactions = db1.transactions ++ [t]) (v : String) :
    txnsFor db2 v = txnsFor db1 v ++ if (t.user_id == v) = true then [t] else [] := by
  unfold txnsFor
  rw [h, List.filter_append]
  congr 1
  cases ht : t.user_id == v <;> simp [List.filter, ht]

theorem sumAmounts_append (l : List Txn) (t : Txn) :
    sumAmounts (l ++ [t]) = sumAmounts l + t.amount := by
  unfold sumAmounts
  rw [List.foldl_append]
  rfl

theorem LedgerInv_congr (db2 db1 : DB) (hw : db2.wallets = db1.wallets)
    (ht : db2.transactions = db1.transactions) (h : LedgerInv db1) : LedgerInv db2 := by
  intro u
  have hb : balanceOf db2 u = balanceOf db1 u := by
    unfold balanceOf findWallet
    rw [hw]
  have htx : txnsFor db2 u = txnsFor db1 u := txnsFor_congr db2 db1 ht u
  obtain ⟨h1, h2⟩ := h u
  constructor
  · unfold sumTxns at h1 ⊢
    rw [htx, hb, h1]
  · intro t hlast
    rw [htx] at hlast
    rw [hb]
    exact h2 t hlast


/-- The common JS credit/debit pattern (`updateUserBalance` then
`addTransaction`) preserves ledger consistency when the generated transaction
id is fresh and the written balance is the old balance plus the recorded
amount. -/
theorem ledger_write_LedgerInv (db : DB) (u ty : String) (amt nb : Int)
    (d : TxnDetails) (now : Nat)
    (hInv : LedgerInv db)
    (hfresh : db.transactions.any
      (fun x => x.transaction_id == "TXN" ++ toString now) = false)
    (hnb : nb = balanceOf db u + amt) :
    LedgerInv (addTransaction (updateUserBalance db u nb) u ty amt d now).1 := by
  set db2 := updateUserBalance db u nb with hdb2
  have hframe2 := updateUserBalance_frame db u nb
  have hfresh2 : db2.transactions.any
      (fun x => x.transaction_id == "TXN" ++ toString now) = false := by
    rw [hframe2.1]; exact hfresh
  have hbal2self : balanceOf db2 u = nb := balanceOf_updateUserBalance_self db u nb
  have htxn := addTransaction_txns_fresh db2 u ty amt d now hfresh2
  have hwal : (addTransaction db2 u ty amt d now).1.wallets = db2.wallets := by
    have h5 := (addTransaction_frame db2 u ty amt d now).2.2.2.2
    rw [h5, getOrCreateWallet_eq_of_isSome db2 u
      (findWallet_updateUserBalance_self_isSome db u nb)]
  set out := (addTransaction db2 u ty amt d now).1 with hout
  have htxn1 : out.transactions = db2.transactions
      ++ [⟨"TXN" ++ toString now, u, ty, amt, nb, d⟩] := by
    rw [htxn.1, hbal2self]
  intro v
  have hbout : balanceOf out v = balanceOf db2 v := by
    rw [balanceOf_eq, balanceOf_eq]
    unfold findWallet
    rw [hwal]
  have htfa := txnsFor_append out db2 ⟨"TXN" ++ toString now, u, ty, amt, nb, d⟩ htxn1 v
  have htf2 : txnsFor db2 v = txnsFor db v := txnsFor_congr db2 db hframe2.1 v
  by_cases hv : v = u
  · subst hv
    have hcond : ((⟨"TXN" ++ toString now, v, ty, amt, nb, d⟩ : Txn).user_id == v) = true := by
      simp
    rw [hcond, if_pos rfl] at htfa
    constructor
    · unfold sumTxns
      rw [htfa, htf2, sumAmounts_append]
      have := (hInv v).1
      unfold sumTxns at this
      rw [this, hbout, hbal2self, hnb]
    · intro t hlast
      rw [htfa, htf2, List.getLast?_concat] at hlast
      cases hlast
      rw [hbout, hbal2self]
  · have hbv : balanceOf db2 v = balanceOf db v :=
      balanceOf_updateUserBalance_other db u nb v hv
    have hcond : ((⟨"TXN" ++ toString now, u, ty, amt, nb, d⟩ : Txn).user_id == v) = false := by
      simp [Ne.symm hv]
    rw [hcond] at htfa
    simp only [Bool.false_eq_true, if_false, List.append_nil] at htfa
    have htfv : txnsFor out v = txnsFor db v := by
      rw [htfa, htf2]
    constructor
    · unfold sumTxns
      rw [htfv, hbout, hbv]
      exact (hInv v).1
    · intro t hlast
      rw [htfv] at hlast
      rw [hbout, hbv]
      exact (hInv v).2 t hlast


/-- A raised exception inside `complete_purchase` leaves the caller with the
input state: the procedure body runs in one transaction and is rolled back. -/
theorem complete_purchase_error_state (db : DB) (u P nm : String) (q : Nat)
    (price : Int) (now : Nat) (e : PurchaseError)
    (h : (complete_purchase db u P q price nm now).2 = .error e) :
    (complete_purchase db u P q price nm now).1 = db := by
  unfold complete_purchase at h ⊢
  cases hb : complete_purchase_body db u P q price nm now with
  | mk dbB res =>
    cases res <;> simp_all

/-- Full characterization of a successful `complete_purchase` call. -/
theorem complete_purchase_ok_spec (db : DB) (u P nm : String) (q : Nat)
    (price : Int) (now : Nat) (db' : DB) (r : PurchaseResult)
    (h : complete_purchase db u P q price nm now = (db', .ok r)) :
    ∃ w, findWallet db u = some w ∧
      ¬ w.balance < price * (q : Int) ∧
      r = { orderId := "ORD" ++ toString now, transactionId := "TXN" ++ toString now,
            deliveryItems := (selectUnsold db P q).map (fun s => s.stock_data),
            total := price * (q : Int),
            newBalance := w.balance - price * (q : Int) } ∧
      ¬ ((selectUnsold db P q).isEmpty = true ∨ (selectUnsold db P q).length < q) ∧
      (db.orders.any (fun o => o.order_id == "ORD" ++ toString now)) = false ∧
      (db.transactions.any (fun t => t.transaction_id == "TXN" ++ toString now)) = false ∧
      db' = purchaseCommitDB db u P nm q price now w := by
  unfold complete_purchase at h
  cases hb : complete_purchase_body db u P q price nm now with
  | mk dbB res =>
    rw [hb] at h
    cases res with
    | error e => simp at h
    | ok r0 =>
      simp only [Prod.mk.injEq, Except.ok.injEq] at h
      obtain ⟨hdb, hr⟩ := h
      subst hdb hr
      simp only [complete_purchase_body] at hb
      cases hw : findWallet db u with
      | none => rw [hw] at hb; simp at hb
      | some w =>
        rw [hw] at hb
        simp only [] at hb
        refine ⟨w, rfl, ?_⟩
        by_cases h1 : w.balance < price * (q : Int)
        · rw [if_pos h1] at hb; simp at hb
        · rw [if_neg h1] at hb
          refine ⟨h1, ?_⟩
          by_cases h2 : (selectUnsold db P q).isEmpty = true ∨ (selectUnsold db P q).length < q
          · rw [if_pos h2] at hb; simp at hb
          · rw [if_neg h2] at hb
            by_cases h3 : (db.orders.any
                (fun o => o.order_id == "ORD" ++ toString now)) = true
            · rw [if_pos h3] at hb; simp at hb
            · rw [if_neg h3] at hb
              by_cases h4 : (db.transactions.any
                  (fun t => t.transaction_id == "TXN" ++ toString now)) = true
              · rw [if_pos h4] at hb; simp at hb
              · rw [if_neg h4] at hb
                simp only [Prod.mk.injEq, Except.ok.injEq] at hb
                obtain ⟨hdbB, hr0⟩ := hb
                refine ⟨?_, h2, by simpa using h3, by simpa using h4, ?_⟩
                · rw [← hr0]
                · rw [← hdbB]
                  rfl


theorem soldUpdate_id (ids : List Nat) (u oid : String) (now : Nat) (s : StockUnit) :
    (soldUpdate ids u oid now s).id = s.id := by
  unfold soldUpdate
  split <;> rfl

theorem soldUpdate_idem (ids : List Nat) (u oid : String) (now : Nat) (s : StockUnit) :
    soldUpdate ids u oid now (soldUpdate ids u oid now s) = soldUpdate ids u oid now s := by
  by_cases h : ids.contains s.id = true
  · have h1 : soldUpdate ids u oid now s
        = { s with is_sold := true, sold_to := some u
                   sold_at := some now, order_id := some oid } := by
      unfold soldUpdate
      rw [if_pos h]
    rw [h1]
    have h2 : ids.contains ({ s with is_sold := true, sold_to := some u, sold_at := some now, order_id := some oid } : StockUnit).id = true := h
    unfold soldUpdate
    rw [if_pos h2]
  · have h1 : soldUpdate ids u oid now s = s := by
      unfold soldUpdate
      rw [if_neg h]
    rw [h1, h1]

/-! ## Claim theorems -/

/-- C2: with product `P` holding three unsold units priced 100 and account `A`
at balance 250, `purchase(A, P, 2)` succeeds, debits exactly 200 (one ledger
entry of amount −200 with balance_after 50), delivers exactly the two oldest
payloads, and leaves balance 50 and one unsold unit; the subsequent
`purchase(A, P, 1)` fails with insufficient balance reporting balance 50 and
required 100, changing nothing. -/
theorem claim_C2_scenario :
    (purchaseRoute scenarioDB "A" "P" (some 2) 1000).2
      = .success "ORD1000" 2 200 ["k1", "k2"] 50 ∧
    balanceOf (purchaseRoute scenarioDB "A" "P" (some 2) 1000).1 "A" = 50 ∧
    (unsoldStocks (purchaseRoute scenarioDB "A" "P" (some 2) 1000).1 "P").length = 1 ∧
    txnsFor (purchaseRoute scenarioDB "A" "P" (some 2) 1000).1 "A"
      = [⟨"TXN1000", "A", "purchase", -200, 50,
          { productId := some "P", productName := some "Prod"
            orderId := some "ORD1000", quantity := some 2 }⟩] ∧
    purchaseRoute (purchaseRoute scenarioDB "A" "P" (some 2) 1000).1 "A" "P" (some 1) 1001
      = ((purchaseRoute scenarioDB "A" "P" (some 2) 1000).1,
         .notEnoughBalance 50 100) := by
  decide

/-- C9: a purchase request whose quantity is ≤ 0 or above the cap of 100 is
rejected as an invalid quantity before the settlement procedure runs, with no
state change.  The validation middleware is modelled from the spec (its source
file is absent); the in-handler re-check alone would coerce a zero quantity to
1 via `parseInt(req.body.quantity) || 1`. -/
theorem claim_C9_invalid_quantity (db : DB) (userId productId : String)
    (q : Int) (now : Nat) (h : q ≤ 0 ∨ 100 < q) :
    purchaseRoute db userId productId (some q) now = (db, .invalidQuantity) := by
  have hv : purchaseValidationOk (some q) = false := by
    unfold purchaseValidationOk
    rcases h with h | h
    · have : ¬ (1 : Int) ≤ q := by omega
      simp [this]
    · have : ¬ q ≤ (100 : Int) := by omega
      simp [this]
  unfold purchaseRoute
  rw [hv]
  simp

theorem claim_C9_witness :
    (((0 : Int) ≤ 0 ∨ 100 < (0 : Int)) ∧
      purchaseRoute initDB "u" "P" (some 0) 5 = (initDB, .invalidQuantity)) :=
  ⟨Or.inl (by decide), claim_C9_invalid_quantity initDB "u" "P" 0 5 (Or.inl (by decide))⟩

/-- C10: whenever voucher validation and the external redeem both succeed, the
TrueMoney redeem handler reaches the unbound identifier `updateBalance`, the
thrown ReferenceError lands in the catch-all, the caller receives the 500
response, and neither the wallets nor the transactions table changes. -/
theorem claim_C10_redeem_broken (db : DB) (userId : String)
    (redeem : AngpaoOutcome) (now : Nat) (h : redeem.success = true) :
    truemoneyRedeemRoute db userId true false redeem now = (db, .serverError) ∧
    (truemoneyRedeemRoute db userId true false redeem now).1.wallets = db.wallets ∧
    (truemoneyRedeemRoute db userId true false redeem now).1.transactions
      = db.transactions := by
  have hmain : truemoneyRedeemRoute db userId true false redeem now
      = (db, .serverError) := by
    unfold truemoneyRedeemRoute updateBalance
    simp [h]
  exact ⟨hmain, by rw [hmain], by rw [hmain]⟩

theorem claim_C10_witness :
    ((⟨true, 30, "t1"⟩ : AngpaoOutcome).success = true ∧
      truemoneyRedeemRoute initDB "u" true false ⟨true, 30, "t1"⟩ 5
        = (initDB, .serverError)) :=
  ⟨rfl, (claim_C10_redeem_broken initDB "u" ⟨true, 30, "t1"⟩ 5 rfl).1⟩

/-- C7 fails on the code: finalizing a unit already sold under a different
order does not fail — `markStockAsSold` reports success and overwrites
`sold_to`, `sold_at` and `order_id` — and a repeat call with the same orderId
is not a no-op, because it refreshes `sold_at` with the new clock value. -/
theorem claim_C7_counterexample :
    (markStockAsSold soldUnitDB [1] "u2" "ORD2" 20).2 = true ∧
    (markStockAsSold soldUnitDB [1] "u2" "ORD2" 20).1.product_stocks
      = [⟨1, "P", "k", true, some "u2", some 20, some "ORD2", 0⟩] ∧
    markStockAsSold (markStockAsSold soldUnitDB [1] "u1" "ORD1" 30).1 [1] "u1" "ORD1" 31
      ≠ markStockAsSold soldUnitDB [1] "u1" "ORD1" 30 := by
  decide

/-- C7 amended: `markStockAsSold` always reports success and unconditionally
marks every listed unit sold with the given account, clock and orderId,
overwriting any previous finalization; unlisted units are untouched; and a
second call with the same unitIds, accountId, orderId and clock value is a
no-op. -/
theorem claim_C7_amended (db : DB) (ids : List Nat) (u oid : String) (now : Nat) :
    (markStockAsSold db ids u oid now).2 = true ∧
    (∀ s ∈ db.product_stocks, ids.contains s.id = false →
      s ∈ (markStockAsSold db ids u oid now).1.product_stocks) ∧
    (∀ s ∈ db.product_stocks, ids.contains s.id = true →
      ({ s with is_sold := true, sold_to := some u, sold_at := some now
                order_id := some oid } : StockUnit)
        ∈ (markStockAsSold db ids u oid now).1.product_stocks) ∧
    markStockAsSold (markStockAsSold db ids u oid now).1 ids u oid now
      = markStockAsSold db ids u oid now := by
  refine ⟨rfl, ?_, ?_, ?_⟩
  · intro s hs hid
    refine List.mem_map.mpr ⟨s, hs, ?_⟩
    unfold soldUpdate
    rw [if_neg (by rw [hid]; simp)]
  · intro s hs hid
    refine List.mem_map.mpr ⟨s, hs, ?_⟩
    unfold soldUpdate
    rw [if_pos hid]
  · unfold markStockAsSold
    simp only [Prod.mk.injEq, and_true]
    show ({ db with product_stocks :=
        (db.product_stocks.map (soldUpdate ids u oid now)).map (soldUpdate ids u oid now) } : DB)
      = { db with product_stocks := db.product_stocks.map (soldUpdate ids u oid now) }
    rw [List.map_map]
    congr 1
    exact List.map_congr_left (fun s _ => soldUpdate_idem ids u oid now s)

theorem claim_C7_amended_witness :
    (⟨1, "P", "k", true, some "u1", some 10, some "ORD1", 0⟩ : StockUnit)
        ∈ soldUnitDB.product_stocks ∧
    ([(1 : Nat)].contains (1 : Nat)) = true ∧
    ({ (⟨1, "P", "k", true, some "u1", some 10, some "ORD1", 0⟩ : StockUnit) with
        is_sold := true, sold_to := some "u9", sold_at := some 44
        order_id := some "ORD9" } : StockUnit)
      ∈ (markStockAsSold soldUnitDB [1] "u9" "ORD9" 44).1.product_stocks :=
  ⟨by decide, by decide,
    (claim_C7_amended soldUnitDB [1] "u9" "ORD9" 44).2.2.1
      ⟨1, "P", "k", true, some "u1", some 10, some "ORD1", 0⟩ (by decide) (by decide)⟩

/-- C1: a `complete_purchase` call that raises (wallet missing, insufficient
balance, insufficient stock — or any other exception) commits nothing: the
state is the input state, the buyer balance is unchanged, no stock row changed,
and no order or ledger row references the attempted orderId. -/
theorem claim_C1_failed_purchase_atomic (db : DB) (u P nm : String) (q : Nat)
    (price : Int) (now : Nat) (e : PurchaseError)
    (hfo : ∀ o ∈ db.orders, o.order_id ≠ "ORD" ++ toString now)
    (hft : ∀ t ∈ db.transactions, t.details.orderId ≠ some ("ORD" ++ toString now))
    (h : (complete_purchase db u P q price nm now).2 = .error e) :
    (complete_purchase db u P q price nm now).1 = db ∧
    balanceOf (complete_purchase db u P q price nm now).1 u = balanceOf db u ∧
    (∀ s ∈ (complete_purchase db u P q price nm now).1.product_stocks,
      s ∈ db.product_stocks) ∧
    (∀ o ∈ (complete_purchase db u P q price nm now).1.orders,
      o.order_id ≠ "ORD" ++ toString now) ∧
    (∀ t ∈ (complete_purchase db u P q price nm now).1.transactions,
      t.details.orderId ≠ some ("ORD" ++ toString now)) := by
  have hst := complete_purchase_error_state db u P nm q price now e h
  refine ⟨hst, by rw [hst], ?_, ?_, ?_⟩
  · rw [hst]; exact fun s hs => hs
  · rw [hst]; exact hfo
  · rw [hst]; exact hft

theorem claim_C1_witness :
    ((∀ o ∈ initDB.orders, o.order_id ≠ "ORD" ++ toString 9) ∧
     (∀ t ∈ initDB.transactions, t.details.orderId ≠ some ("ORD" ++ toString 9)) ∧
     (complete_purchase initDB "u" "P" 1 5 "x" 9).2
        = .error (.walletNotFound "u") ∧
     (complete_purchase initDB "u" "P" 1 5 "x" 9).1 = initDB) := by
  refine ⟨by simp [initDB], by simp [initDB], by decide, ?_⟩
  exact (claim_C1_failed_purchase_atomic initDB "u" "P" "x" 1 5 9
    (.walletNotFound "u") (by simp [initDB]) (by simp [initDB]) (by decide)).1


/-- C5: once the wallet checks pass, the reservation step of
`complete_purchase` takes exactly the `q` oldest unsold units of the product:
every selected unit is an unsold unit of `P` from the table, every selected
unit is no younger than every unselected unsold unit, and the selection plus
the rest is a permutation of all unsold units of `P`; with enough stock the
selection has length exactly `q` and the delivered payloads are the selected
units' payloads in order, and with fewer than `q` unsold units the call fails
with `INSUFFICIENT_STOCK (available, requested)` leaving the state untouched. -/
theorem claim_C5_fifo_reservation (db : DB) (u P nm : String) (q : Nat)
    (price : Int) (now : Nat) (w : Wallet)
    (hw : findWallet db u = some w)
    (hbal : ¬ w.balance < price * (q : Int)) :
    ((unsoldStocks db P).length < q →
      complete_purchase db u P q price nm now
        = (db, .error (.insufficientStock (unsoldStocks db P).length q))) ∧
    (∀ s ∈ selectUnsold db P q,
      s ∈ db.product_stocks ∧ s.is_sold = false ∧ s.product_id = P) ∧
    (∀ s ∈ selectUnsold db P q,
      ∀ t ∈ (List.insertionSort createdLE (unsoldStocks db P)).drop q,
        s.created_at ≤ t.created_at) ∧
    ((unsoldStocks db P).Perm
      (selectUnsold db P q
        ++ (List.insertionSort createdLE (unsoldStocks db P)).drop q)) ∧
    (q ≤ (unsoldStocks db P).length → (selectUnsold db P q).length = q) ∧
    (∀ db' r, complete_purchase db u P q price nm now = (db', .ok r) →
      r.deliveryItems = (selectUnsold db P q).map (fun s => s.stock_data)) := by
  have hperm : (List.insertionSort createdLE (unsoldStocks db P)).Perm
      (unsoldStocks db P) := List.perm_insertionSort createdLE (unsoldStocks db P)
  have hlen : (List.insertionSort createdLE (unsoldStocks db P)).length
      = (unsoldStocks db P).length := hperm.length_eq
  have hsorted : List.Pairwise createdLE
      (List.insertionSort createdLE (unsoldStocks db P)) :=
    List.sorted_insertionSort createdLE (unsoldStocks db P)
  refine ⟨?_, ?_, ?_, ?_, ?_, ?_⟩
  · intro hlt
    have hsel : (selectUnsold db P q).length = (unsoldStocks db P).length := by
      unfold selectUnsold
      rw [List.length_take, hlen]
      omega
    unfold complete_purchase complete_purchase_body
    rw [hw]
    simp only []
    rw [if_neg hbal, if_pos (Or.inr (by rw [hsel]; exact hlt))]
    rw [hsel]
  · intro s hs
    have hmem : s ∈ unsoldStocks db P :=
      hperm.mem_iff.mp (List.mem_of_mem_take hs)
    have := List.mem_filter.mp hmem
    refine ⟨this.1, ?_, ?_⟩
    · have h2 := this.2
      simp only [Bool.and_eq_true, beq_iff_eq] at h2
      exact h2.2
    · have h2 := this.2
      simp only [Bool.and_eq_true, beq_iff_eq] at h2
      exact h2.1
  · intro s hs t ht
    have hsplit : List.Pairwise createdLE
        ((List.insertionSort createdLE (unsoldStocks db P)).take q
          ++ (List.insertionSort createdLE (unsoldStocks db P)).drop q) := by
      rw [List.take_append_drop]
      exact hsorted
    exact (List.pairwise_append.mp hsplit).2.2 s hs t ht
  · have : (selectUnsold db P q
        ++ (List.insertionSort createdLE (unsoldStocks db P)).drop q)
        = List.insertionSort createdLE (unsoldStocks db P) := by
      unfold selectUnsold
      exact List.take_append_drop q _
    rw [this]
    exact hperm.symm
  · intro hq
    unfold selectUnsold
    rw [List.length_take, hlen]
    omega
  · intro db' r h
    obtain ⟨w', _, _, hr, _⟩ := complete_purchase_ok_spec db u P nm q price now db' r h
    rw [hr]

theorem claim_C5_witness :
    (findWallet lowStockDB "B" = some ⟨"B", 1000⟩ ∧
     ¬ (⟨"B", 1000⟩ : Wallet).balance < 100 * ((2 : Nat) : Int) ∧
     (unsoldStocks lowStockDB "P").length < 2 ∧
     complete_purchase lowStockDB "B" "P" 2 100 "nm" 8
        = (lowStockDB, .error (.insufficientStock (unsoldStocks lowStockDB "P").length 2))) := by
  refine ⟨by decide, by decide, by decide, ?_⟩
  exact (claim_C5_fifo_reservation lowStockDB "B" "P" "nm" 2 100 8 ⟨"B", 1000⟩
    (by decide) (by decide)).1 (by decide)


/-! ## Orders monotonicity across operations -/

theorem complete_purchase_orders_mono (db : DB) (u P nm : String) (q : Nat)
    (price : Int) (now : Nat) :
    ∀ o ∈ db.orders, o ∈ (complete_purchase db u P q price nm now).1.orders := by
  intro o ho
  cases hcp : (complete_purchase db u P q price nm now).2 with
  | error e =>
    rw [complete_purchase_error_state db u P nm q price now e hcp]
    exact ho
  | ok r =>
    have h : complete_purchase db u P q price nm now
        = ((complete_purchase db u P q price nm now).1, .ok r) := Prod.ext rfl hcp
    obtain ⟨w, hw, hbal, hr, hsel, hord, htxn, hdb⟩ :=
      complete_purchase_ok_spec db u P nm q price now _ r h
    rw [hdb]
    show o ∈ db.orders ++ [purchaseOrderRec u P nm q price now
      ((selectUnsold db P q).map (fun s => s.stock_data))]
    exact List.mem_append_left _ ho

theorem purchaseRoute_orders_mono (db : DB) (u P : String) (bq : Option Int)
    (now : Nat) :
    ∀ o ∈ db.orders, o ∈ (purchaseRoute db u P bq now).1.orders := by
  intro o ho
  unfold purchaseRoute
  split
  · exact ho
  split
  · exact ho
  cases hp : getProductById db P with
  | none => exact ho
  | some product =>
    simp only []
    split
    · exact ho
    split
    · exact ho
    split <;> rename_i db0 heq <;>
      (first
        | (have hm := complete_purchase_orders_mono db u P product.name
            (parsedQuantity bq).toNat product.price now o ho
           rw [heq] at hm
           exact hm))

theorem deductRoute_orders (db : DB) (u : String) (a : Option Int)
    (pid pnm : Option String) (now : Nat) :
    (deductRoute db u a pid pnm now).1.orders = db.orders := by
  unfold deductRoute
  cases a with
  | none => rfl
  | some a0 =>
    simp only []
    split
    · rfl
    · split
      · exact (getOrCreateWallet_frame db u).2.1
      · rw [(addTransaction_frame _ u "purchase" (-a0) _ now).1,
          (updateUserBalance_frame _ u _).2.1]
        exact (getOrCreateWallet_frame db u).2.1

theorem adminTopupRoute_orders (db : DB) (adminId : String) (tu : Option String)
    (a : Option Int) (now : Nat) :
    (adminTopupRoute db adminId tu a now).1.orders = db.orders := by
  unfold adminTopupRoute
  cases tu with
  | none => cases a <;> rfl
  | some uid =>
    cases a with
    | none => rfl
    | some a0 =>
      simp only []
      split
      · rfl
      · rw [(addTransaction_frame _ uid "topup" a0 _ now).1,
          (updateUserBalance_frame _ uid _).2.1, getUserBalance_fst,
          (getOrCreateWallet_frame _ uid).2.1]
        exact (getOrCreateWallet_frame db uid).2.1

theorem approveCommit_orders (db : DB) (requestId adminId : String)
    (request : TopupRequest) (bodyAmount : Option Int) (note : Option String)
    (now : Nat) :
    (approveCommit db requestId adminId request bodyAmount note now).1.orders
      = db.orders := by
  unfold approveCommit
  rw [(addTransaction_frame _ request.user_id "topup" _ _ now).1,
    (updateUserBalance_frame _ request.user_id _).2.1, getUserBalance_fst,
    (getOrCreateWallet_frame _ request.user_id).2.1,
    (getOrCreateWallet_frame _ request.user_id).2.1]
  rfl

theorem approveTopupRoute_orders (db : DB) (requestId adminId : String)
    (bodyAmount : Option Int) (note : Option String) (now : Nat) :
    (approveTopupRoute db requestId adminId bodyAmount note now).1.orders
      = db.orders := by
  unfold approveTopupRoute
  cases hr : db.topup_requests.find? (fun r =>
      r.request_id == requestId && r.status == "pending") with
  | none => rfl
  | some request =>
    simp only []
    split
    · rfl
    · exact approveCommit_orders db requestId adminId request bodyAmount note now

theorem rejectTopupRoute_orders (db : DB) (requestId adminId : String)
    (note : Option String) (now : Nat) :
    (rejectTopupRoute db requestId adminId note now).1.orders = db.orders := by
  unfold rejectTopupRoute
  cases db.topup_requests.find? (fun r =>
      r.request_id == requestId && r.status == "pending") <;> rfl

theorem cancelTopupRoute_orders (db : DB) (requestId userId : String) (now : Nat) :
    (cancelTopupRoute db requestId userId now).1.orders = db.orders := by
  unfold cancelTopupRoute
  cases db.topup_requests.find? (fun r =>
      r.request_id == requestId && r.user_id == userId && r.status == "pending") <;> rfl

theorem submitTopupRoute_orders (db : DB) (userId : String) (amount : Int)
    (method : String) (slipUrl : Option String) (now : Nat) :
    (submitTopupRoute db userId amount method slipUrl now).1.orders = db.orders := by
  unfold submitTopupRoute
  split
  · rfl
  · split
    · rfl
    · split
      · rfl
      · split <;> rfl

theorem truemoneyRedeemRoute_orders (db : DB) (userId : String)
    (voucherValid alreadyUsed : Bool) (redeem : AngpaoOutcome) (now : Nat) :
    (truemoneyRedeemRoute db userId voucherValid alreadyUsed redeem now).1.orders
      = db.orders := by
  unfold truemoneyRedeemRoute
  split
  · rfl
  · split
    · rfl
    · split
      · rfl
      · cases hub : updateBalance userId redeem.amount with
        | error e => rfl
        | ok v =>
          simp only []
          rw [getUserBalance_fst, (getOrCreateWallet_frame _ userId).2.1]
          exact (addTransaction_frame db userId "topup" redeem.amount _ now).1

theorem step_orders_mono (db : DB) (op : Op) :
    ∀ o ∈ db.orders, o ∈ (step db op).orders := by
  intro o ho
  cases op with
  | login u =>
    show o ∈ (getOrCreateWallet db u).1.orders
    rw [(getOrCreateWallet_frame db u).2.1]
    exact ho
  | purchase u P bq now => exact purchaseRoute_orders_mono db u P bq now o ho
  | deduct u a pid pnm now =>
    show o ∈ (deductRoute db u a pid pnm now).1.orders
    rw [deductRoute_orders]
    exact ho
  | adminTopup adminId tu a now =>
    show o ∈ (adminTopupRoute db adminId tu a now).1.orders
    rw [adminTopupRoute_orders]
    exact ho
  | submitTopup u a m sl now =>
    show o ∈ (submitTopupRoute db u a m sl now).1.orders
    rw [submitTopupRoute_orders]
    exact ho
  | approveTopup rid aid ba note now =>
    show o ∈ (approveTopupRoute db rid aid ba note now).1.orders
    rw [approveTopupRoute_orders]
    exact ho
  | rejectTopup rid aid note now =>
    show o ∈ (rejectTopupRoute db rid aid note now).1.orders
    rw [rejectTopupRoute_orders]
    exact ho
  | cancelTopup rid uid now =>
    show o ∈ (cancelTopupRoute db rid uid now).1.orders
    rw [cancelTopupRoute_orders]
    exact ho
  | redeemAngpao u v al r now =>
    show o ∈ (truemoneyRedeemRoute db u v al r now).1.orders
    rw [truemoneyRedeemRoute_orders]
    exact ho
  | addProduct p => exact ho
  | addStock pid units now => exact ho

theorem runOps_orders_mono (ops : List Op) : ∀ db : DB,
    ∀ o ∈ db.orders, o ∈ (runOps db ops).orders := by
  induction ops with
  | nil => intro db o ho; exact ho
  | cons op ops ih =>
    intro db o ho
    exact ih (step db op) o (step_orders_mono db op o ho)


theorem complete_purchase_ok_orderId (db : DB) (u P nm : String) (q : Nat)
    (price : Int) (now : Nat) (db' : DB) (r : PurchaseResult)
    (h : complete_purchase db u P q price nm now = (db', .ok r)) :
    (∀ o ∈ db.orders, o.order_id ≠ r.orderId) ∧
    (∃ o ∈ db'.orders, o.order_id = r.orderId) := by
  obtain ⟨w, hw, hbal, hr, hsel, hord, htxn, hdb⟩ :=
    complete_purchase_ok_spec db u P nm q price now db' r h
  have hrid : r.orderId = "ORD" ++ toString now := by rw [hr]
  constructor
  · intro o ho
    rw [hrid]
    intro hc
    have hany : db.orders.any (fun o => o.order_id == "ORD" ++ toString now) = true :=
      List.any_eq_true.mpr ⟨o, ho, by rw [hc]; exact beq_self_eq_true _⟩
    rw [hany] at hord
    cases hord
  · refine ⟨purchaseOrderRec u P nm q price now
      ((selectUnsold db P q).map (fun s => s.stock_data)), ?_, ?_⟩
    · rw [hdb]
      show _ ∈ db.orders ++ [purchaseOrderRec u P nm q price now
        ((selectUnsold db P q).map (fun s => s.stock_data))]
      exact List.mem_append_right _ (List.mem_singleton.mpr rfl)
    · rw [hrid]
      rfl

/-- C8: two successful purchase calls, with any sequence of core operations in
between, commit under different orderIds: each successful call requires its
generated orderId to be absent from the orders table (the UNIQUE constraint
aborts and rolls back the purchase otherwise) and leaves a row carrying it,
and no operation ever removes an order row. -/
theorem claim_C8_no_orderId_collision (db db1 db2 db3 : DB) (mid : List Op)
    (u1 P1 nm1 : String) (q1 : Nat) (pr1 : Int) (now1 : Nat) (r1 : PurchaseResult)
    (u2 P2 nm2 : String) (q2 : Nat) (pr2 : Int) (now2 : Nat) (r2 : PurchaseResult)
    (h1 : complete_purchase db u1 P1 q1 pr1 nm1 now1 = (db1, .ok r1))
    (hmid : runOps db1 mid = db2)
    (h2 : complete_purchase db2 u2 P2 q2 pr2 nm2 now2 = (db3, .ok r2)) :
    r1.orderId ≠ r2.orderId := by
  obtain ⟨_, hex1⟩ := complete_purchase_ok_orderId db u1 P1 nm1 q1 pr1 now1 db1 r1 h1
  obtain ⟨hfr2, _⟩ := complete_purchase_ok_orderId db2 u2 P2 nm2 q2 pr2 now2 db3 r2 h2
  obtain ⟨o, ho1, hid⟩ := hex1
  have ho2 : o ∈ db2.orders := by
    rw [← hmid]
    exact runOps_orders_mono mid db1 o ho1
  intro hc
  exact hfr2 o ho2 (by rw [hid, hc])

theorem claim_C8_witness :
    ((complete_purchase scenarioDB "A" "P" 1 100 "Prod" 50).2
      = .ok { orderId := "ORD50", transactionId := "TXN50"
              deliveryItems := ["k1"], total := 100, newBalance := 150 } ∧
     (complete_purchase (complete_purchase scenarioDB "A" "P" 1 100 "Prod" 50).1
        "A" "P" 1 100 "Prod" 51).2
      = .ok { orderId := "ORD51", transactionId := "TXN51"
              deliveryItems := ["k2"], total := 100, newBalance := 50 } ∧
     ({ orderId := "ORD50", transactionId := "TXN50"
        deliveryItems := ["k1"], total := 100, newBalance := 150 } : PurchaseResult).orderId
       ≠ ({ orderId := "ORD51", transactionId := "TXN51"
            deliveryItems := ["k2"], total := 100, newBalance := 50 } : PurchaseResult).orderId) := by
  refine ⟨by decide, by decide, ?_⟩
  exact claim_C8_no_orderId_collision scenarioDB _ _ _ []
    "A" "P" "Prod" 1 100 50 _ "A" "P" "Prod" 1 100 51 _
    (Prod.ext rfl (by decide)) rfl (Prod.ext rfl (by decide))


/-! ## Approve-route characterization -/

theorem balanceOf_wallets_congr (db2 db1 : DB) (h : db2.wallets = db1.wallets)
    (v : String) : balanceOf db2 v = balanceOf db1 v := by
  rw [balanceOf_eq, balanceOf_eq]
  unfold findWallet
  rw [h]

theorem approveTopupRoute_notPending (db : DB) (reqId admin : String)
    (body : Option Int) (note : Option String) (now : Nat)
    (h : ∀ r ∈ db.topup_requests, r.request_id = reqId → r.status ≠ "pending") :
    approveTopupRoute db reqId admin body note now = (db, .notFoundOrHandled) := by
  have hnone : db.topup_requests.find? (fun r =>
      r.request_id == reqId && r.status == "pending") = none := by
    rw [List.find?_eq_none]
    intro r hr hc
    simp only [Bool.and_eq_true, beq_iff_eq] at hc
    exact h r hr hc.1 hc.2
  unfold approveTopupRoute
  rw [hnone]

theorem approveCommit_spec (db : DB) (reqId admin : String) (request : TopupRequest)
    (body : Option Int) (note : Option String) (now : Nat)
    (hfresh : db.transactions.any
      (fun t => t.transaction_id == "TXN" ++ toString now) = false) :
    (approveCommit db reqId admin request body note now).2
      = .ok (balanceOf db request.user_id + amountOf body request) ∧
    (approveCommit db reqId admin request body note now).1.topup_requests
      = db.topup_requests.map (approveUpd reqId admin (amountOf body request) note now) ∧
    balanceOf (approveCommit db reqId admin request body note now).1 request.user_id
      = balanceOf db request.user_id + amountOf body request ∧
    (approveCommit db reqId admin request body note now).1.transactions
      = db.transactions ++ [⟨"TXN" ++ toString now, request.user_id, "topup",
          amountOf body request, balanceOf db request.user_id + amountOf body request,
          ⟨none, none, none, none, some request.method, some reqId⟩⟩] := by
  set A := amountOf body request with hA
  set u := request.user_id with hu
  set db1 := approveDB1 db reqId admin A note now with hdb1
  set db2 := (getOrCreateWallet db1 u).1 with hdb2
  set db3 := (getUserBalance db2 u).1 with hdb3
  set db4 := updateUserBalance db3 u ((getUserBalance db2 u).2 + A) with hdb4
  set d : TxnDetails := ⟨none, none, none, none, some request.method, some reqId⟩ with hd
  have hrfl : approveCommit db reqId admin request body note now
      = ((addTransaction db4 u "topup" A d now).1,
         .ok ((getUserBalance db2 u).2 + A)) := rfl
  have hdb1w : db1.wallets = db.wallets := rfl
  have hdb1t : db1.transactions = db.transactions := rfl
  have hdb1p : db1.topup_requests
      = db.topup_requests.map (approveUpd reqId admin A note now) := rfl
  have hb2 : balanceOf db2 u = balanceOf db u := by
    rw [hdb2, balanceOf_getOrCreateWallet, balanceOf_wallets_congr db1 db hdb1w]
  have hg2 : (getUserBalance db2 u).2 = balanceOf db u := by
    rw [getUserBalance_snd, hb2]
  have hdb3e : db3 = (getOrCreateWallet db2 u).1 := rfl
  have hdb4t : db4.transactions = db.transactions := by
    rw [hdb4, (updateUserBalance_frame db3 u _).1, hdb3e,
      (getOrCreateWallet_frame db2 u).1, hdb2, (getOrCreateWallet_frame db1 u).1, hdb1t]
  have hdb4p : db4.topup_requests
      = db.topup_requests.map (approveUpd reqId admin A note now) := by
    rw [hdb4, (updateUserBalance_frame db3 u _).2.2.2.1, hdb3e,
      (getOrCreateWallet_frame db2 u).2.2.2.1, hdb2,
      (getOrCreateWallet_frame db1 u).2.2.2.1, hdb1p]
  have hb4 : balanceOf db4 u = balanceOf db u + A := by
    rw [hdb4, balanceOf_updateUserBalance_self, hg2]
  have hfresh4 : db4.transactions.any
      (fun t => t.transaction_id == "TXN" ++ toString now) = false := by
    rw [hdb4t]; exact hfresh
  have htx := addTransaction_txns_fresh db4 u "topup" A d now hfresh4
  have hw5 : (addTransaction db4 u "topup" A d now).1.wallets = db4.wallets := by
    rw [(addTransaction_frame db4 u "topup" A d now).2.2.2.2,
      getOrCreateWallet_eq_of_isSome db4 u
        (by rw [hdb4]; exact findWallet_updateUserBalance_self_isSome db3 u _)]
  refine ⟨?_, ?_, ?_, ?_⟩
  · rw [hrfl]
    show TopupResp.ok ((getUserBalance db2 u).2 + A) = _
    rw [hg2]
  · rw [hrfl]
    show (addTransaction db4 u "topup" A d now).1.topup_requests = _
    rw [(addTransaction_frame db4 u "topup" A d now).2.2.1, hdb4p]
  · rw [hrfl]
    show balanceOf (addTransaction db4 u "topup" A d now).1 u = _
    rw [balanceOf_wallets_congr _ db4 hw5, hb4]
  · rw [hrfl]
    show (addTransaction db4 u "topup" A d now).1.transactions = _
    rw [htx.1, hb4, hdb4t, hd]


/-- C6 fails on the code: with a pending request for `u` and a ledger already
holding a row with id `TXN7`, approving at clock 7 reports success, marks the
request approved, credits the wallet — but the ledger insert is silently
dropped (duplicate `transaction_id`), so the state transition happens without
the ledger credit. -/
theorem claim_C6_counterexample :
    (approveTopupRoute approveCollisionDB "REQ1" "admin" none none 7).2 = .ok 100 ∧
    (∀ r ∈ (approveTopupRoute approveCollisionDB "REQ1" "admin" none none 7).1.topup_requests,
      r.status = "approved") ∧
    balanceOf (approveTopupRoute approveCollisionDB "REQ1" "admin" none none 7).1 "u"
      = 100 ∧
    (approveTopupRoute approveCollisionDB "REQ1" "admin" none none 7).1.transactions
      = approveCollisionDB.transactions := by
  decide

/-- C6 amended: approve fails NotPending when the request is absent or not
pending; a successful approve — provided the generated transaction id
`TXN<now>` does not collide with an existing ledger row — transitions the
request to approved, stamps reviewer and review time, credits the wallet and
appends exactly one ledger entry for the amount, together; and a second
approve of the same requestId fails NotPending and changes nothing, so the
ledger is credited exactly once. -/
theorem claim_C6_amended (db : DB) (reqId admin : String) (body : Option Int)
    (note : Option String) (now : Nat) :
    ((∀ r ∈ db.topup_requests, r.request_id = reqId → r.status ≠ "pending") →
      approveTopupRoute db reqId admin body note now = (db, .notFoundOrHandled)) ∧
    (∀ request, db.topup_requests.find? (fun r =>
        r.request_id == reqId && r.status == "pending") = some request →
      0 < amountOf body request →
      db.transactions.any (fun t => t.transaction_id == "TXN" ++ toString now) = false →
      (approveTopupRoute db reqId admin body note now).2
        = .ok (balanceOf db request.user_id + amountOf body request) ∧
      (∀ r' ∈ (approveTopupRoute db reqId admin body note now).1.topup_requests,
        r'.request_id = reqId → r'.status = "approved" ∧
          r'.reviewed_by = some admin ∧ r'.reviewed_at = some now) ∧
      balanceOf (approveTopupRoute db reqId admin body note now).1 request.user_id
        = balanceOf db request.user_id + amountOf body request ∧
      txnsFor (approveTopupRoute db reqId admin body note now).1 request.user_id
        = txnsFor db request.user_id ++ [⟨"TXN" ++ toString now, request.user_id,
            "topup", amountOf body request,
            balanceOf db request.user_id + amountOf body request,
            ⟨none, none, none, none, some request.method, some reqId⟩⟩] ∧
      (∀ admin2 : String, ∀ body2 : Option Int, ∀ note2 : Option String, ∀ now2 : Nat,
        approveTopupRoute (approveTopupRoute db reqId admin body note now).1 reqId
          admin2 body2 note2 now2
          = ((approveTopupRoute db reqId admin body note now).1, .notFoundOrHandled))) := by
  constructor
  · exact approveTopupRoute_notPending db reqId admin body note now
  · intro request hfind hpos hfresh
    have hroute : approveTopupRoute db reqId admin body note now
        = approveCommit db reqId admin request body note now := by
      unfold approveTopupRoute
      rw [hfind]
      simp only []
      rw [if_neg (not_le.mpr hpos)]
    obtain ⟨hresp, htops, hbal, htxns⟩ :=
      approveCommit_spec db reqId admin request body note now hfresh
    have hstat : ∀ r' ∈ (approveTopupRoute db reqId admin body note now).1.topup_requests,
        r'.request_id = reqId → r'.status = "approved" ∧
          r'.reviewed_by = some admin ∧ r'.reviewed_at = some now := by
      intro r' hr' hid
      rw [hroute, htops] at hr'
      obtain ⟨r0, hr0, hup⟩ := List.mem_map.mp hr'
      by_cases h0 : (r0.request_id == reqId) = true
      · have hupd : approveUpd reqId admin (amountOf body request) note now r0 = { r0 with status := "approved", amount := amountOf body request, admin_note := some (note.getD "approved"), reviewed_by := some admin, reviewed_at := some now } := by
          unfold approveUpd
          rw [if_pos h0]
        rw [← hup, hupd]
        exact ⟨rfl, rfl, rfl⟩
      · exfalso
        have : r' = r0 := by
          rw [← hup]
          unfold approveUpd
          rw [if_neg h0]
        rw [this] at hid
        rw [hid] at h0
        simp at h0
    refine ⟨by rw [hroute]; exact hresp, hstat, by rw [hroute]; exact hbal, ?_, ?_⟩
    · have := txnsFor_append (approveCommit db reqId admin request body note now).1 db
        ⟨"TXN" ++ toString now, request.user_id, "topup", amountOf body request,
          balanceOf db request.user_id + amountOf body request,
          ⟨none, none, none, none, some request.method, some reqId⟩⟩ htxns request.user_id
      rw [hroute, this]
      have hbeq : ((⟨"TXN" ++ toString now, request.user_id, "topup",
          amountOf body request, balanceOf db request.user_id + amountOf body request,
          ⟨none, none, none, none, some request.method, some reqId⟩⟩ : Txn).user_id
            == request.user_id) = true := beq_self_eq_true _
      rw [hbeq]
      simp
    · intro admin2 body2 note2 now2
      exact approveTopupRoute_notPending _ reqId admin2 body2 note2 now2
        (fun r' hr' hid => by rw [(hstat r' hr' hid).1]; decide)


theorem claim_C6_witness :
    (approveCollisionDB.topup_requests.find? (fun r =>
        r.request_id == "REQ1" && r.status == "pending")
      = some ⟨"REQ1", "u", 100, "promptpay", none, "pending", none, none, none⟩ ∧
     0 < amountOf none ⟨"REQ1", "u", 100, "promptpay", none, "pending", none, none, none⟩ ∧
     approveCollisionDB.transactions.any
        (fun t => t.transaction_id == "TXN" ++ toString 8) = false ∧
     (approveTopupRoute approveCollisionDB "REQ1" "admin" none none 8).2
       = .ok (balanceOf approveCollisionDB "u"
           + amountOf none ⟨"REQ1", "u", 100, "promptpay", none, "pending", none, none, none⟩)) := by
  refine ⟨by decide, by decide, by decide, ?_⟩
  exact (((claim_C6_amended approveCollisionDB "REQ1" "admin" none none 8).2)
    ⟨"REQ1", "u", 100, "promptpay", none, "pending", none, none, none⟩
    (by decide) (by decide) (by decide)).1


/-! ## Wallet-nonnegativity and ledger-invariant preservation -/

theorem LedgerInv_congr2 (db2 db1 : DB) (hb : ∀ v, balanceOf db2 v = balanceOf db1 v)
    (ht : db2.transactions = db1.transactions) (h : LedgerInv db1) : LedgerInv db2 := by
  intro v
  have htx : txnsFor db2 v = txnsFor db1 v := txnsFor_congr db2 db1 ht v
  obtain ⟨h1, h2⟩ := h v
  constructor
  · unfold sumTxns at h1 ⊢
    rw [htx, hb v, h1]
  · intro t hlast
    rw [htx] at hlast
    rw [hb v]
    exact h2 t hlast

theorem balanceOf_nonneg (db : DB) (h : WalletsNonneg db) (v : String) :
    0 ≤ balanceOf db v := by
  rw [balanceOf_eq]
  unfold findWallet
  cases hf : db.wallets.find? (fun w => w.user_id == v) with
  | none => simp
  | some w =>
    have hm : w ∈ db.wallets := List.mem_of_find?_eq_some hf
    simpa using h w hm

theorem ledger_write_nonneg (db : DB) (u ty : String) (amt nb : Int)
    (d : TxnDetails) (now : Nat)
    (hInv : WalletsNonneg db) (hnb : 0 ≤ nb) :
    WalletsNonneg (addTransaction (updateUserBalance db u nb) u ty amt d now).1 := by
  intro w hw
  rw [(addTransaction_frame (updateUserBalance db u nb) u ty amt d now).2.2.2.2] at hw
  rcases getOrCreateWallet_wallets_mem (updateUserBalance db u nb) u w hw with h1 | h1
  · rcases updateUserBalance_wallets_mem db u nb w h1 with h2 | h2
    · exact hInv w h2
    · rw [h2]; exact hnb
  · rw [h1]

theorem ledger_write_wallets_txns (db : DB) (u ty : String) (amt nb : Int)
    (d : TxnDetails) (now : Nat) :
    (addTransaction (updateUserBalance db u nb) u ty amt d now).1.orders = db.orders ∧
    (addTransaction (updateUserBalance db u nb) u ty amt d now).1.product_stocks
      = db.product_stocks ∧
    (addTransaction (updateUserBalance db u nb) u ty amt d now).1.topup_requests
      = db.topup_requests ∧
    (addTransaction (updateUserBalance db u nb) u ty amt d now).1.products
      = db.products := by
  obtain ⟨a1, a2, a3, a4, _⟩ := addTransaction_frame (updateUserBalance db u nb) u ty amt d now
  obtain ⟨u1, u2, u3, u4, u5⟩ := updateUserBalance_frame db u nb
  exact ⟨by rw [a1, u2], by rw [a2, u3], by rw [a3, u4], by rw [a4, u5]⟩

theorem truemoneyRedeemRoute_state (db : DB) (userId : String)
    (voucherValid alreadyUsed : Bool) (redeem : AngpaoOutcome) (now : Nat) :
    (truemoneyRedeemRoute db userId voucherValid alreadyUsed redeem now).1 = db := by
  unfold truemoneyRedeemRoute
  split
  · rfl
  split
  · rfl
  split
  · rfl
  rfl


theorem getOrCreateWallet_nonneg (db : DB) (u : String) (h : WalletsNonneg db) :
    WalletsNonneg (getOrCreateWallet db u).1 := by
  intro w hw
  rcases getOrCreateWallet_wallets_mem db u w hw with h1 | h1
  · exact h w h1
  · rw [h1]

theorem getOrCreateWallet_LedgerInv (db : DB) (u : String) (h : LedgerInv db) :
    LedgerInv (getOrCreateWallet db u).1 :=
  LedgerInv_congr2 _ db (balanceOf_getOrCreateWallet db u)
    (getOrCreateWallet_frame db u).1 h

theorem purchaseCommitDB_wallets_mem (db : DB) (u P nm : String) (q : Nat)
    (price : Int) (now : Nat) (w : Wallet) :
    ∀ x ∈ (purchaseCommitDB db u P nm q price now w).wallets,
      x ∈ db.wallets ∨ x.balance = w.balance - price * (q : Int) := by
  intro x hx
  obtain ⟨y, hy, hye⟩ := List.mem_map.mp hx
  by_cases hyu : (y.user_id == u) = true
  · right
    rw [← hye]
    show (if (y.user_id == u) = true then
        ({ y with balance := w.balance - price * (q : Int) } : Wallet) else y).balance = _
    rw [if_pos hyu]
  · left
    rw [← hye]
    show (if (y.user_id == u) = true then
        ({ y with balance := w.balance - price * (q : Int) } : Wallet) else y) ∈ db.wallets
    rw [if_neg hyu]
    exact hy

theorem balanceOf_purchaseCommitDB_self (db : DB) (u P nm : String) (q : Nat)
    (price : Int) (now : Nat) (w : Wallet) (hw : findWallet db u = some w) :
    balanceOf (purchaseCommitDB db u P nm q price now w) u
      = w.balance - price * (q : Int) := by
  rw [balanceOf_eq]
  show (((db.wallets.map (fun (x : Wallet) =>
      if x.user_id == u then { x with balance := w.balance - price * (q : Int) }
      else x)).find? (fun x => x.user_id == u)).map Wallet.balance).getD 0 = _
  rw [find?_update_list_self]
  unfold findWallet at hw
  rw [hw]
  rfl

theorem balanceOf_purchaseCommitDB_other (db : DB) (u P nm : String) (q : Nat)
    (price : Int) (now : Nat) (w : Wallet) (v : String) (hv : v ≠ u) :
    balanceOf (purchaseCommitDB db u P nm q price now w) v = balanceOf db v := by
  rw [balanceOf_eq]
  show (((db.wallets.map (fun (x : Wallet) =>
      if x.user_id == u then { x with balance := w.balance - price * (q : Int) }
      else x)).find? (fun x => x.user_id == v)).map Wallet.balance).getD 0 = _
  rw [find?_update_list_other db.wallets u _ v hv, balanceOf_eq]
  rfl

theorem complete_purchase_nonneg (db : DB) (u P nm : String) (q : Nat)
    (price : Int) (now : Nat) (h : WalletsNonneg db) :
    WalletsNonneg (complete_purchase db u P q price nm now).1 := by
  cases hcp : (complete_purchase db u P q price nm now).2 with
  | error e =>
    rw [complete_purchase_error_state db u P nm q price now e hcp]
    exact h
  | ok r =>
    obtain ⟨w, hw, hbal, hr, _, _, _, hdb⟩ :=
      complete_purchase_ok_spec db u P nm q price now _ r (Prod.ext rfl hcp)
    have hdb2 : (complete_purchase db u P q price nm now).1
        = purchaseCommitDB db u P nm q price now w := hdb
    intro x hx
    rw [hdb2] at hx
    rcases purchaseCommitDB_wallets_mem db u P nm q price now w x hx with h1 | h1
    · exact h x h1
    · rw [h1]
      have h2 : price * (q : Int) ≤ w.balance := not_lt.mp hbal
      omega

theorem complete_purchase_LedgerInv (db : DB) (u P nm : String) (q : Nat)
    (price : Int) (now : Nat) (h : LedgerInv db) :
    LedgerInv (complete_purchase db u P q price nm now).1 := by
  cases hcp : (complete_purchase db u P q price nm now).2 with
  | error e =>
    rw [complete_purchase_error_state db u P nm q price now e hcp]
    exact h
  | ok r =>
    obtain ⟨w, hw, hbal, hr, hsel, hord, htxn, hdb⟩ :=
      complete_purchase_ok_spec db u P nm q price now _ r (Prod.ext rfl hcp)
    have hdb2 : (complete_purchase db u P q price nm now).1
        = purchaseCommitDB db u P nm q price now w := hdb
    rw [hdb2]
    have hbu : balanceOf db u = w.balance := by
      rw [balanceOf_eq]
      unfold findWallet at hw ⊢
      rw [hw]
      rfl
    have htr : (purchaseCommitDB db u P nm q price now w).transactions
        = db.transactions
          ++ [purchaseTxnRec u P nm q price now (w.balance - price * (q : Int))] := rfl
    intro v
    have htfa := txnsFor_append (purchaseCommitDB db u P nm q price now w) db
      (purchaseTxnRec u P nm q price now (w.balance - price * (q : Int))) htr v
    by_cases hv : v = u
    · subst hv
      have hbself := balanceOf_purchaseCommitDB_self db v P nm q price now w hw
      have hcond : ((purchaseTxnRec v P nm q price now
          (w.balance - price * (q : Int))).user_id == v) = true := beq_self_eq_true v
      rw [hcond, if_pos rfl] at htfa
      constructor
      · unfold sumTxns
        rw [htfa, sumAmounts_append, hbself]
        have hs := (h v).1
        unfold sumTxns at hs
        rw [hs, hbu]
        show w.balance + -(price * (q : Int)) = _
        omega
      · intro t hlast
        rw [htfa, List.getLast?_concat] at hlast
        cases hlast
        rw [hbself]
        rfl
    · have hcond : ((purchaseTxnRec u P nm q price now
          (w.balance - price * (q : Int))).user_id == v) = false := by
        show (u == v) = false
        exact beq_eq_false_iff_ne.mpr (Ne.symm hv)
      rw [hcond] at htfa
      simp only [Bool.false_eq_true, if_false, List.append_nil] at htfa
      have hbv := balanceOf_purchaseCommitDB_other db u P nm q price now w v hv
      constructor
      · unfold sumTxns
        rw [htfa, hbv]
        exact (h v).1
      · intro t hlast
        rw [htfa] at hlast
        rw [hbv]
        exact (h v).2 t hlast


theorem purchaseRoute_nonneg (db : DB) (u P : String) (bq : Option Int)
    (now : Nat) (h : WalletsNonneg db) :
    WalletsNonneg (purchaseRoute db u P bq now).1 := by
  unfold purchaseRoute
  split
  · exact h
  split
  · exact h
  cases hp : getProductById db P with
  | none => exact h
  | some product =>
    simp only []
    split
    · exact h
    split
    · exact h
    split <;> rename_i db0 heq <;>
      (first
        | (have hm := complete_purchase_nonneg db u P product.name
            (parsedQuantity bq).toNat product.price now h
           rw [heq] at hm
           exact hm))

theorem purchaseRoute_LedgerInv (db : DB) (u P : String) (bq : Option Int)
    (now : Nat) (h : LedgerInv db) :
    LedgerInv (purchaseRoute db u P bq now).1 := by
  unfold purchaseRoute
  split
  · exact h
  split
  · exact h
  cases hp : getProductById db P with
  | none => exact h
  | some product =>
    simp only []
    split
    · exact h
    split
    · exact h
    split <;> rename_i db0 heq <;>
      (first
        | (have hm := complete_purchase_LedgerInv db u P product.name
            (parsedQuantity bq).toNat product.price now h
           rw [heq] at hm
           exact hm))

theorem deductRoute_nonneg (db : DB) (u : String) (a : Option Int)
    (pid pnm : Option String) (now : Nat) (h : WalletsNonneg db) :
    WalletsNonneg (deductRoute db u a pid pnm now).1 := by
  unfold deductRoute
  cases a with
  | none => exact h
  | some a0 =>
    simp only []
    split
    · exact h
    split
    · exact getOrCreateWallet_nonneg db u h
    · rename_i hpos hnlt
      apply ledger_write_nonneg
      · exact getOrCreateWallet_nonneg db u h
      · have h1 : ¬ (getUserBalance db u).2 < a0 := hnlt
        omega

theorem deductRoute_LedgerInv (db : DB) (u : String) (a : Option Int)
    (pid pnm : Option String) (now : Nat) (h : LedgerInv db)
    (hfresh : db.transactions.any
      (fun t => t.transaction_id == "TXN" ++ toString now) = false) :
    LedgerInv (deductRoute db u a pid pnm now).1 := by
  unfold deductRoute
  cases a with
  | none => exact h
  | some a0 =>
    simp only []
    split
    · exact h
    split
    · exact getOrCreateWallet_LedgerInv db u h
    · rename_i hpos hnlt
      apply ledger_write_LedgerInv
      · exact getOrCreateWallet_LedgerInv db u h
      · rw [getUserBalance_fst, (getOrCreateWallet_frame db u).1]
        exact hfresh
      · have h1 : balanceOf (getUserBalance db u).1 u = (getUserBalance db u).2 := by
          rw [getUserBalance_snd]
          exact balanceOf_getOrCreateWallet db u u
        rw [h1]
        omega

theorem adminTopupRoute_nonneg (db : DB) (adminId : String) (tu : Option String)
    (a : Option Int) (now : Nat) (h : WalletsNonneg db) :
    WalletsNonneg (adminTopupRoute db adminId tu a now).1 := by
  unfold adminTopupRoute
  cases tu with
  | none => cases a <;> exact h
  | some uid =>
    cases a with
    | none => exact h
    | some a0 =>
      simp only []
      split
      · exact h
      · rename_i hpos
        apply ledger_write_nonneg
        · exact getOrCreateWallet_nonneg _ uid
            (getOrCreateWallet_nonneg db uid h)
        · have h1 : (getUserBalance (getOrCreateWallet db uid).1 uid).2
              = balanceOf db uid := by
            rw [getUserBalance_snd]
            exact balanceOf_getOrCreateWallet db uid uid
          have h2 : 0 ≤ balanceOf db uid := balanceOf_nonneg db h uid
          omega

theorem adminTopupRoute_LedgerInv (db : DB) (adminId : String) (tu : Option String)
    (a : Option Int) (now : Nat) (h : LedgerInv db)
    (hfresh : db.transactions.any
      (fun t => t.transaction_id == "TXN" ++ toString now) = false) :
    LedgerInv (adminTopupRoute db adminId tu a now).1 := by
  unfold adminTopupRoute
  cases tu with
  | none => cases a <;> exact h
  | some uid =>
    cases a with
    | none => exact h
    | some a0 =>
      simp only []
      split
      · exact h
      · rename_i hpos
        apply ledger_write_LedgerInv
        case hInv =>
          exact getOrCreateWallet_LedgerInv _ uid
            (getOrCreateWallet_LedgerInv db uid h)
        case hfresh =>
          rw [getUserBalance_fst, (getOrCreateWallet_frame _ uid).1,
            (getOrCreateWallet_frame db uid).1]
          exact hfresh
        case hnb =>
          have h1 : balanceOf (getUserBalance (getOrCreateWallet db uid).1 uid).1 uid
              = (getUserBalance (getOrCreateWallet db uid).1 uid).2 := by
            rw [getUserBalance_snd]
            exact balanceOf_getOrCreateWallet (getOrCreateWallet db uid).1 uid uid
          rw [h1]


theorem approveCommit_nonneg (db : DB) (reqId admin : String)
    (request : TopupRequest) (body : Option Int) (note : Option String) (now : Nat)
    (hpos : 0 < amountOf body request) (h : WalletsNonneg db) :
    WalletsNonneg (approveCommit db reqId admin request body note now).1 := by
  have hdb1 : WalletsNonneg (approveDB1 db reqId admin (amountOf body request) note now) :=
    fun w hw => h w hw
  unfold approveCommit
  simp only []
  apply ledger_write_nonneg
  case hInv =>
    exact getOrCreateWallet_nonneg _ request.user_id
      (getOrCreateWallet_nonneg _ request.user_id hdb1)
  case hnb =>
    have h1 : (getUserBalance ((getOrCreateWallet
        (approveDB1 db reqId admin (amountOf body request) note now)
        request.user_id).1) request.user_id).2
        = balanceOf ((getOrCreateWallet
            (approveDB1 db reqId admin (amountOf body request) note now)
            request.user_id).1) request.user_id := getUserBalance_snd _ _
    have h2 : 0 ≤ balanceOf ((getOrCreateWallet
        (approveDB1 db reqId admin (amountOf body request) note now)
        request.user_id).1) request.user_id :=
      balanceOf_nonneg _ (getOrCreateWallet_nonneg _ request.user_id hdb1) _
    omega

theorem approveCommit_LedgerInv (db : DB) (reqId admin : String)
    (request : TopupRequest) (body : Option Int) (note : Option String) (now : Nat)
    (h : LedgerInv db)
    (hfresh : db.transactions.any
      (fun t => t.transaction_id == "TXN" ++ toString now) = false) :
    LedgerInv (approveCommit db reqId admin request body note now).1 := by
  have hdb1 : LedgerInv (approveDB1 db reqId admin (amountOf body request) note now) :=
    LedgerInv_congr _ db rfl rfl h
  unfold approveCommit
  simp only []
  apply ledger_write_LedgerInv
  case hInv =>
    exact getOrCreateWallet_LedgerInv _ request.user_id
      (getOrCreateWallet_LedgerInv _ request.user_id hdb1)
  case hfresh =>
    rw [getUserBalance_fst, (getOrCreateWallet_frame _ request.user_id).1,
      (getOrCreateWallet_frame _ request.user_id).1]
    exact hfresh
  case hnb =>
    have h1 : balanceOf (getUserBalance ((getOrCreateWallet
        (approveDB1 db reqId admin (amountOf body request) note now)
        request.user_id).1) request.user_id).1 request.user_id
        = (getUserBalance ((getOrCreateWallet
            (approveDB1 db reqId admin (amountOf body request) note now)
            request.user_id).1) request.user_id).2 := by
      rw [getUserBalance_snd]
      exact balanceOf_getOrCreateWallet _ request.user_id request.user_id
    rw [h1]

theorem approveTopupRoute_nonneg (db : DB) (reqId admin : String)
    (body : Option Int) (note : Option String) (now : Nat) (h : WalletsNonneg db) :
    WalletsNonneg (approveTopupRoute db reqId admin body note now).1 := by
  unfold approveTopupRoute
  cases hr : db.topup_requests.find? (fun r =>
      r.request_id == reqId && r.status == "pending") with
  | none => exact h
  | some request =>
    simp only []
    split
    · exact h
    · rename_i hpos
      exact approveCommit_nonneg db reqId admin request body note now
        (by omega) h

theorem approveTopupRoute_LedgerInv (db : DB) (reqId admin : String)
    (body : Option Int) (note : Option String) (now : Nat) (h : LedgerInv db)
    (hfresh : db.transactions.any
      (fun t => t.transaction_id == "TXN" ++ toString now) = false) :
    LedgerInv (approveTopupRoute db reqId admin body note now).1 := by
  unfold approveTopupRoute
  cases hr : db.topup_requests.find? (fun r =>
      r.request_id == reqId && r.status == "pending") with
  | none => exact h
  | some request =>
    simp only []
    split
    · exact h
    · exact approveCommit_LedgerInv db reqId admin request body note now h hfresh

theorem submitTopupRoute_wt (db : DB) (userId : String) (amount : Int)
    (method : String) (slipUrl : Option String) (now : Nat) :
    (submitTopupRoute db userId amount method slipUrl now).1.wallets = db.wallets ∧
    (submitTopupRoute db userId amount method slipUrl now).1.transactions
      = db.transactions := by
  unfold submitTopupRoute
  split
  · exact ⟨rfl, rfl⟩
  split
  · exact ⟨rfl, rfl⟩
  split
  · exact ⟨rfl, rfl⟩
  split
  · exact ⟨rfl, rfl⟩
  exact ⟨rfl, rfl⟩

theorem rejectTopupRoute_wt (db : DB) (reqId admin : String) (note : Option String)
    (now : Nat) :
    (rejectTopupRoute db reqId admin note now).1.wallets = db.wallets ∧
    (rejectTopupRoute db reqId admin note now).1.transactions = db.transactions := by
  unfold rejectTopupRoute
  cases db.topup_requests.find? (fun r =>
      r.request_id == reqId && r.status == "pending") with
  | none => exact ⟨rfl, rfl⟩
  | some request => exact ⟨rfl, rfl⟩

theorem cancelTopupRoute_wt (db : DB) (reqId userId : String) (now : Nat) :
    (cancelTopupRoute db reqId userId now).1.wallets = db.wallets ∧
    (cancelTopupRoute db reqId userId now).1.transactions = db.transactions := by
  unfold cancelTopupRoute
  cases db.topup_requests.find? (fun r =>
      r.request_id == reqId && r.user_id == userId && r.status == "pending") with
  | none => exact ⟨rfl, rfl⟩
  | some request => exact ⟨rfl, rfl⟩

theorem stepOkFresh (l : List Txn) (x : String)
    (h : l.all (fun t => t.transaction_id != x) = true) :
    l.any (fun t => t.transaction_id == x) = false := by
  rw [List.any_eq_false]
  intro t ht
  have h2 := List.all_eq_true.mp h t ht
  simp only [bne_iff_ne, ne_eq] at h2
  simp [h2]

theorem step_nonneg (db : DB) (op : Op) (h : WalletsNonneg db) :
    WalletsNonneg (step db op) := by
  cases op with
  | login u => exact getOrCreateWallet_nonneg db u h
  | purchase u P bq now => exact purchaseRoute_nonneg db u P bq now h
  | deduct u a pid pnm now => exact deductRoute_nonneg db u a pid pnm now h
  | adminTopup adminId tu a now => exact adminTopupRoute_nonneg db adminId tu a now h
  | submitTopup u a m sl now =>
    intro w hw
    unfold step at hw
    rw [(submitTopupRoute_wt db u a m sl now).1] at hw
    exact h w hw
  | approveTopup rid aid ba note now =>
    exact approveTopupRoute_nonneg db rid aid ba note now h
  | rejectTopup rid aid note now =>
    intro w hw
    unfold step at hw
    rw [(rejectTopupRoute_wt db rid aid note now).1] at hw
    exact h w hw
  | cancelTopup rid uid now =>
    intro w hw
    unfold step at hw
    rw [(cancelTopupRoute_wt db rid uid now).1] at hw
    exact h w hw
  | redeemAngpao u v al r now =>
    intro w hw
    have hst : step db (Op.redeemAngpao u v al r now)
        = (truemoneyRedeemRoute db u v al r now).1 := rfl
    rw [hst, truemoneyRedeemRoute_state db u v al r now] at hw
    exact h w hw
  | addProduct p => exact h
  | addStock pid units now => exact h

theorem step_LedgerInv (db : DB) (op : Op) (h : LedgerInv db)
    (hok : stepOk db op = true) : LedgerInv (step db op) := by
  cases op with
  | login u => exact getOrCreateWallet_LedgerInv db u h
  | purchase u P bq now => exact purchaseRoute_LedgerInv db u P bq now h
  | deduct u a pid pnm now =>
    exact deductRoute_LedgerInv db u a pid pnm now h (stepOkFresh _ _ hok)
  | adminTopup adminId tu a now =>
    exact adminTopupRoute_LedgerInv db adminId tu a now h (stepOkFresh _ _ hok)
  | submitTopup u a m sl now =>
    exact LedgerInv_congr _ db (submitTopupRoute_wt db u a m sl now).1
      (submitTopupRoute_wt db u a m sl now).2 h
  | approveTopup rid aid ba note now =>
    exact approveTopupRoute_LedgerInv db rid aid ba note now h (stepOkFresh _ _ hok)
  | rejectTopup rid aid note now =>
    exact LedgerInv_congr _ db (rejectTopupRoute_wt db rid aid note now).1
      (rejectTopupRoute_wt db rid aid note now).2 h
  | cancelTopup rid uid now =>
    exact LedgerInv_congr _ db (cancelTopupRoute_wt db rid uid now).1
      (cancelTopupRoute_wt db rid uid now).2 h
  | redeemAngpao u v al r now =>
    have hst : step db (Op.redeemAngpao u v al r now)
        = (truemoneyRedeemRoute db u v al r now).1 := rfl
    exact LedgerInv_congr _ db
      (by rw [hst, truemoneyRedeemRoute_state db u v al r now])
      (by rw [hst, truemoneyRedeemRoute_state db u v al r now]) h
  | addProduct p => exact LedgerInv_congr _ db rfl rfl h
  | addStock pid units now => exact LedgerInv_congr _ db rfl rfl h

theorem runOps_nonneg (ops : List Op) : ∀ db : DB, WalletsNonneg db →
    WalletsNonneg (runOps db ops) := by
  induction ops with
  | nil => intro db h; exact h
  | cons op ops ih =>
    intro db h
    exact ih (step db op) (step_nonneg db op h)

theorem runOps_LedgerInv (ops : List Op) : ∀ db : DB, LedgerInv db →
    runOk db ops = true → LedgerInv (runOps db ops) := by
  induction ops with
  | nil => intro db h _; exact h
  | cons op ops ih =>
    intro db h hok
    unfold runOk at hok
    obtain ⟨h1, h2⟩ := Bool.and_eq_true_iff.mp hok
    exact ih (step db op) (step_LedgerInv db op h h1) h2

theorem WalletsNonneg_initDB : WalletsNonneg initDB := by
  intro w hw
  cases hw

theorem LedgerInv_initDB : LedgerInv initDB := by
  intro u
  constructor
  · rfl
  · intro t hlast
    cases hlast


/-- C3: wallet balances never go negative.  Every state reachable from the
empty database through the core operations keeps all wallet rows ≥ 0; the two
debiting operations fail without a write when the debit exceeds the balance:
the deduct route answers `insufficient` leaving the state unchanged, and the
purchase procedure raises `INSUFFICIENT_BALANCE` leaving the state unchanged;
all other operations only add non-negative amounts. -/
theorem claim_C3_no_negative_balance :
    (∀ ops : List Op, WalletsNonneg (runOps initDB ops)) ∧
    (∀ (db : DB) (u : String) (a : Int) (pid pnm : Option String) (now : Nat),
      (findWallet db u).isSome = true → 0 < a → balanceOf db u < a →
      deductRoute db u (some a) pid pnm now
        = (db, .insufficient (balanceOf db u) a)) ∧
    (∀ (db : DB) (u P nm : String) (q : Nat) (price : Int) (now : Nat) (w : Wallet),
      findWallet db u = some w → w.balance < price * (q : Int) →
      complete_purchase db u P q price nm now
        = (db, .error (.insufficientBalance w.balance (price * (q : Int))))) := by
  refine ⟨fun ops => runOps_nonneg ops initDB WalletsNonneg_initDB, ?_, ?_⟩
  · intro db u a pid pnm now hsome hpos hlt
    unfold deductRoute
    simp only []
    rw [if_neg (by omega)]
    have h2 : (getUserBalance db u).2 = balanceOf db u := getUserBalance_snd db u
    have h1 : (getUserBalance db u).1 = db := by
      rw [getUserBalance_fst]
      exact getOrCreateWallet_eq_of_isSome db u hsome
    rw [h2, h1, if_pos hlt]
  · intro db u P nm q price now w hw hlt
    have hbody : complete_purchase_body db u P q price nm now
        = (db, .error (.insufficientBalance w.balance (price * (q : Int)))) := by
      unfold complete_purchase_body
      rw [hw]
      simp only []
      rw [if_pos hlt]
    unfold complete_purchase
    rw [hbody]

theorem claim_C3_witness :
    ((findWallet scenarioDB "A").isSome = true ∧ (0 : Int) < 300 ∧
     balanceOf scenarioDB "A" < 300 ∧
     deductRoute scenarioDB "A" (some 300) none none 9
       = (scenarioDB, .insufficient (balanceOf scenarioDB "A") 300)) := by
  refine ⟨by decide, by decide, by decide, ?_⟩
  exact claim_C3_no_negative_balance.2.1 scenarioDB "A" 300 none none 9
    (by decide) (by decide) (by decide)

/-- C4 fails on the code: two admin top-ups for the same account in the same
`Date.now()` millisecond generate the same `TXN5` transaction id; the second
insert violates the UNIQUE constraint, `addTransaction` swallows the error and
returns null, so the balance reaches 150 while the replayed ledger sums to 100
and the last entry's `balance_after` is 100. -/
theorem claim_C4_counterexample :
    sumTxns (runOps initDB [.adminTopup "a" (some "u") (some 100) 5,
      .adminTopup "a" (some "u") (some 50) 5]) "u" = 100 ∧
    balanceOf (runOps initDB [.adminTopup "a" (some "u") (some 100) 5,
      .adminTopup "a" (some "u") (some 50) 5]) "u" = 150 ∧
    (txnsFor (runOps initDB [.adminTopup "a" (some "u") (some 100) 5,
      .adminTopup "a" (some "u") (some 50) 5]) "u").getLast?
      = some ⟨"TXN5", "u", "topup", 100, 100, ⟨none, none, none, none, some "admin", none⟩⟩ := by
  decide

/-- C4 amended: after any sequence of core operations in which no JS-side
ledger write reuses a generated `TXN<timestamp>` id already present in the
transactions table (the purchase procedure needs no proviso: a duplicate id
there aborts and rolls back the whole call), every account's replayed ledger
sum equals its wallet balance, and the last ledger entry's `balance_after`
equals the balance. -/
theorem claim_C4_amended (ops : List Op) (hok : runOk initDB ops = true) :
    LedgerInv (runOps initDB ops) :=
  runOps_LedgerInv ops initDB LedgerInv_initDB hok

theorem claim_C4_witness :
    (runOk initDB [.adminTopup "a" (some "u") (some 100) 5,
        .deduct "u" (some 30) none none 6] = true ∧
     LedgerInv (runOps initDB [.adminTopup "a" (some "u") (some 100) 5,
        .deduct "u" (some 30) none none 6])) :=
  ⟨by decide, claim_C4_amended _ (by decide)⟩

end DipsShop
